import Mathlib

/-!
Shallow embedding of the analytics core of the `streamlit_dashboard` repository
(`gastos_automaticos.py`, `calculos_financieros.py`, `ai_analysis.py`).

Modelling conventions:
* pandas DataFrames become `List` of typed records; a database query
  (`get_ventas` / `get_gastos`) becomes an explicit ledger parameter;
* Python floats are modelled as exact rationals (`ℚ`); each comparison
  `x < mean + k * std`, whose right-hand side involves a square root, is
  encoded by the equivalent sign-and-square condition over `ℚ`;
* dates (`pd.Timestamp`) are modelled as `Int` day indices counted from
  1970-01-01 (a Thursday), with calendar fields recovered by the standard
  civil-from-days conversion;
* the wall clock (`pd.Timestamp.now()`, `datetime.now()`) is an explicit
  `now : Int` parameter; formatted-float substrings of informational
  messages are interpolated unrounded;
* the optional statistical libraries (Prophet/statsmodels/sklearn) fit
  models whose numeric output is not reproducible arithmetic; following
  the spec they are capability-gated strategies, so a successful strategy
  is an explicit `(name, maskedSum)` input to the ensemble combiner.
-/

set_option maxHeartbeats 400000

namespace Dashboard

/-- Sum of a rational-valued column of a ledger (`df[col].sum()`). -/
def sumBy {α : Type} (l : List α) (f : α → ℚ) : ℚ :=
  (l.map f).sum

/-- `np.mean` / pandas `.mean()` of a list of rationals.  The empty case
(`0 / 0 = 0` in `ℚ`) is only reached under guards in the translated code. -/
def listMean (l : List ℚ) : ℚ :=
  l.sum / (l.length : ℚ)

/-- Population variance (`np.std(...)**2`, `ddof = 0`). -/
def pvariance (l : List ℚ) : ℚ :=
  let m := listMean l
  listMean (l.map (fun x => (x - m) ^ 2))

/-- Sample variance (pandas `.std()**2`, `ddof = 1`); `none` models the
`NaN` that pandas produces on fewer than two values. -/
def svariance (l : List ℚ) : Option ℚ :=
  if l.length ≤ 1 then none
  else
    let m := listMean l
    some ((l.map (fun x => (x - m) ^ 2)).sum / ((l.length : ℚ) - 1))

/-- Encodes `x > μ + k·σ` where `σ = sqrt v` (`none` = NaN, every
comparison with NaN is false): equivalently `x - μ > 0 ∧ (x-μ)² > k²·v`. -/
def gtMeanPlusKStd (x μ : ℚ) (k : ℚ) (v : Option ℚ) : Bool :=
  match v with
  | none => false
  | some v => decide (0 < x - μ) && decide (k ^ 2 * v < (x - μ) ^ 2)

/-- Encodes `x < μ - k·σ` where `σ = sqrt v` (`none` = NaN). -/
def ltMeanMinusKStd (x μ : ℚ) (k : ℚ) (v : Option ℚ) : Bool :=
  match v with
  | none => false
  | some v => decide (0 < μ - x) && decide (k ^ 2 * v < (μ - x) ^ 2)

/-- Encodes `σ / m < bound` for `m > 0`, where `σ = sqrt v`:
equivalently `v < bound² · m²`. -/
def cvLt (v : ℚ) (m : ℚ) (bound : ℚ) : Bool :=
  decide (v < bound ^ 2 * m ^ 2)

/-- Civil calendar from a day index (days since 1970-01-01), the standard
era-based conversion; returns `(year, month, day)`. -/
def civilFromDays (z0 : Int) : Int × Int × Int :=
  let z := z0 + 719468
  let era := z.fdiv 146097
  let doe := z - era * 146097
  let yoe := (doe - doe.fdiv 1460 + doe.fdiv 36524 - doe.fdiv 146096).fdiv 365
  let y := yoe + era * 400
  let doy := doe - (365 * yoe + yoe.fdiv 4 - yoe.fdiv 100)
  let mp := (5 * doy + 2).fdiv 153
  let d := doy - (153 * mp + 2).fdiv 5 + 1
  let m := mp + (if mp < 10 then 3 else -9)
  (y + (if m ≤ 2 then 1 else 0), m, d)

/-- Month number (1..12) of a day index. -/
def monthOfDay (z : Int) : Int :=
  (civilFromDays z).2.1

/-- Month period (`dt.to_period('M')`): a totally ordered month index. -/
def monthPeriod (z : Int) : Int :=
  (civilFromDays z).1 * 12 + (civilFromDays z).2.1

/-- Python `weekday()`: Monday = 0 .. Sunday = 6.  Day 0 (1970-01-01) is a
Thursday, hence the `+ 3` offset. -/
def weekday (z : Int) : Int :=
  (z + 3).emod 7

/-- Weekly period (`dt.to_period('W')`, weeks Monday..Sunday). -/
def weekPeriod (z : Int) : Int :=
  (z + 3).fdiv 7

/-- English month name (`strftime("%B")`). -/
def monthName (m : Int) : String :=
  if m = 1 then "January" else if m = 2 then "February"
  else if m = 3 then "March" else if m = 4 then "April"
  else if m = 5 then "May" else if m = 6 then "June"
  else if m = 7 then "July" else if m = 8 then "August"
  else if m = 9 then "September" else if m = 10 then "October"
  else if m = 11 then "November" else "December"

/-- English weekday name (`dt.day_name()`). -/
def dayName (z : Int) : String :=
  let w := weekday z
  if w = 0 then "Monday" else if w = 1 then "Tuesday"
  else if w = 2 then "Wednesday" else if w = 3 then "Thursday"
  else if w = 4 then "Friday" else if w = 5 then "Saturday" else "Sunday"

/-- Two-digit zero padding for ISO date rendering. -/
def pad2 (n : Int) : String :=
  if n < 10 then s!"0{n}" else s!"{n}"

/-- ISO rendering of a day index (`str(ts.date())`). -/
def dateStr (z : Int) : String :=
  let c := civilFromDays z
  let y := c.1
  let ms := pad2 c.2.1
  let ds := pad2 c.2.2
  s!"{y}-{ms}-{ds}"

/-- A row of the `ventas` table (SaleRecord): the columns the analytics
core reads.  `fecha` is a day index; identification/detail columns that
the core never touches are omitted. -/
structure Venta where
  fecha : Int
  sucursal : String
  cliente : String
  tipo_re_se : String
  mano_obra : ℚ
  asistencia : ℚ
  repuestos : ℚ
  terceros : ℚ
  descuento : ℚ
  total : ℚ
deriving DecidableEq

/-- A row of the `gastos` table (ExpenseRecord), covering both manually
recorded rows and the synthetic rows built by `obtener_gastos_automaticos`
(`fecha` is `none` when a synthetic row finds no sale dates). -/
structure Gasto where
  mes : String
  fecha : Option Int
  sucursal : String
  area : String
  pct_postventa : ℚ
  pct_servicios : ℚ
  pct_repuestos : ℚ
  tipo : String
  clasificacion : String
  proveedor : String
  total_usd : ℚ
  total_pct : ℚ
  total_pct_se : ℚ
  total_pct_re : ℚ
  automatico : Bool
deriving DecidableEq

/-! ## gastos_automaticos.py -/

/-- `COSTO_PORCENTAJE = 0.65`: cost ratio over parts revenue. -/
def COSTO_PORCENTAJE : ℚ := 65 / 100

/-- `df_ventas['sucursal'].dropna().unique()`: the distinct branches of a
sales ledger (`sucursal` is non-null in the typed model; uniqueness, not
order, matters to every property below). -/
def sucursalesDe (ventas : List Venta) : List String :=
  (ventas.map (·.sucursal)).dedup

/-- `df_ventas[df_ventas['sucursal'] == sucursal]`. -/
def ventasDeSucursal (ventas : List Venta) (s : String) : List Venta :=
  ventas.filter (fun v => v.sucursal = s)

/-- Counter parts revenue of one branch slice: sum of the `repuestos`
column over `RE` sales, falling back to the summed `total` when that sum
is zero (also covering the column-absent case, which sums to zero). -/
def totalRepuestosMostrador (dfSucursal : List Venta) : ℚ :=
  let ventas_re := dfSucursal.filter (fun v => v.tipo_re_se = "RE")
  let t := sumBy ventas_re (·.repuestos)
  if t = 0 then sumBy ventas_re (·.total) else t

/-- `costo_repuestos_mostrador` of one branch slice. -/
def costoRepuestosMostrador (dfSucursal : List Venta) : ℚ :=
  totalRepuestosMostrador dfSucursal * COSTO_PORCENTAJE

/-- Parts revenue embedded in `SE` sales of one branch slice: sum of the
`repuestos` column, approximated as 70% of the summed `total` when that
sum is zero (also covering the column-absent case). -/
def totalRepuestosServicios (dfSucursal : List Venta) : ℚ :=
  let ventas_se := dfSucursal.filter (fun v => v.tipo_re_se = "SE")
  let t := sumBy ventas_se (·.repuestos)
  if t = 0 then sumBy ventas_se (·.total) * (7 / 10) else t

/-- `costo_repuestos_servicios` of one branch slice. -/
def costoRepuestosServicios (dfSucursal : List Venta) : ℚ :=
  totalRepuestosServicios dfSucursal * COSTO_PORCENTAJE

/-- `df_sucursal['fecha'].max()` (the slice is non-empty for every branch
produced by `sucursalesDe`, but the source still guards the empty case). -/
def fechaMaxDe (dfSucursal : List Venta) : Option Int :=
  (dfSucursal.map (·.fecha)).max?

/-- `fecha_max.strftime("%B")`, `''` when there is no date. -/
def mesStrDe (dfSucursal : List Venta) : String :=
  match fechaMaxDe dfSucursal with
  | some d => monthName (monthOfDay d)
  | none => ""

/-- The synthetic `COSTO DE REPUESTOS VENDIDOS MOSTRADOR` row of a branch. -/
def gastoAutoMostrador (dfSucursal : List Venta) (sucursal : String) : Gasto :=
  let costo := costoRepuestosMostrador dfSucursal
  { mes := mesStrDe dfSucursal
    fecha := fechaMaxDe dfSucursal
    sucursal := sucursal
    area := "REPUESTOS"
    pct_postventa := 1
    pct_servicios := 0
    pct_repuestos := 1
    tipo := "VARIABLE"
    clasificacion := "COSTO DE REPUESTOS VENDIDOS MOSTRADOR"
    proveedor := "JOHN DEERE"
    total_usd := costo
    total_pct := costo
    total_pct_se := 0
    total_pct_re := costo
    automatico := true }

/-- The synthetic `COSTO DE REPUESTOS VENDIDOS EN SERVICIOS` row of a branch. -/
def gastoAutoServicios (dfSucursal : List Venta) (sucursal : String) : Gasto :=
  let costo := costoRepuestosServicios dfSucursal
  { mes := mesStrDe dfSucursal
    fecha := fechaMaxDe dfSucursal
    sucursal := sucursal
    area := "SERVICIO"
    pct_postventa := 1
    pct_servicios := 1
    pct_repuestos := 0
    tipo := "VARIABLE"
    clasificacion := "COSTO DE REPUESTOS VENDIDOS EN SERVICIOS"
    proveedor := "JOHN DEERE"
    total_usd := costo
    total_pct := costo
    total_pct_se := costo
    total_pct_re := 0
    automatico := true }

/-- The (0, 1 or 2) synthetic rows one branch contributes: each is kept
only when its cost is strictly positive. -/
def entradasAutoSucursal (ventas : List Venta) (s : String) : List Gasto :=
  let dfSucursal := ventasDeSucursal ventas s
  (if 0 < costoRepuestosMostrador dfSucursal
     then [gastoAutoMostrador dfSucursal s] else []) ++
  (if 0 < costoRepuestosServicios dfSucursal
     then [gastoAutoServicios dfSucursal s] else [])

/-- `obtener_gastos_automaticos`: per-branch synthetic cost rows derived
from the sales ledger (the ledger replaces the `get_ventas` query; dates
are valid in the typed model, so the `dropna` step is the identity). -/
def obtener_gastos_automaticos (ventas : List Venta) : List Gasto :=
  if ventas.length = 0 then []
  else (sucursalesDe ventas).flatMap (entradasAutoSucursal ventas)

/-- The two classification labels whose manual rows are dropped before
merging. -/
def clasificaciones_automaticas : List String :=
  ["COSTO DE REPUESTOS VENDIDOS MOSTRADOR",
   "COSTO DE REPUESTOS VENDIDOS EN SERVICIOS"]

/-- Result record of `obtener_gastos_totales_con_automaticos`. -/
structure GastosTotales where
  gastos_registrados : List Gasto
  gastos_automaticos : List Gasto
  gastos_todos : List Gasto
  gastos_postventa_total : ℚ
  gastos_se_total : ℚ
  gastos_re_total : ℚ
deriving DecidableEq

/-- `obtener_gastos_totales_con_automaticos`: drops manual rows carrying a
synthetic classification, appends the recomputed synthetic rows, and sums
the allocation columns (the `len > 0` guards around the sums coincide with
`List.sum [] = 0`). -/
def obtener_gastos_totales_con_automaticos
    (dbVentas : List Venta) (dbGastos : List Gasto) : GastosTotales :=
  let df_gastos :=
    if 0 < dbGastos.length then
      dbGastos.filter (fun g => g.clasificacion ∉ clasificaciones_automaticas)
    else dbGastos
  let df_auto := obtener_gastos_automaticos dbVentas
  let df_todos := if 0 < df_auto.length then df_gastos ++ df_auto else df_gastos
  { gastos_registrados := df_gastos
    gastos_automaticos := df_auto
    gastos_todos := df_todos
    gastos_postventa_total :=
      sumBy df_todos (·.total_pct_se) + sumBy df_todos (·.total_pct_re)
    gastos_se_total := sumBy df_todos (·.total_pct_se)
    gastos_re_total := sumBy df_todos (·.total_pct_re) }

/-! ## calculos_financieros.py -/

/-- Result record shared by the three absorption-factor calculators (the
revenue field is named `ingresos_servicios` / `ingresos_repuestos` /
`ingresos_totales` in the respective Python dicts). -/
structure FactorAbsorcion where
  ingresos : ℚ
  gastos_fijos : ℚ
  gastos_variables : ℚ
  factor_absorcion : ℚ
  margen : ℚ
  resultado_operativo : ℚ
deriving DecidableEq

/-- The expense frame the absorption calculators build:
`gastos_registrados` re-concatenated with `gastos_automaticos` when the
latter is non-empty. -/
def gastosParaFactor (gt : GastosTotales) : List Gasto :=
  if 0 < gt.gastos_automaticos.length then
    gt.gastos_registrados ++ gt.gastos_automaticos
  else gt.gastos_registrados

/-- Shared arithmetic of every absorption-factor scope: guarded factor,
margin and operating result. -/
def mkFactorAbsorcion (ingresos gastos_fijos gastos_variables : ℚ) :
    FactorAbsorcion :=
  let factor_absorcion :=
    if 0 < gastos_fijos then ingresos / gastos_fijos * 100 else 0
  let margen := ingresos - gastos_variables
  { ingresos, gastos_fijos, gastos_variables, factor_absorcion, margen
    resultado_operativo := margen - gastos_fijos }

/-- `calcular_factor_absorcion_servicios` (global scope,
`por_sucursal=False`); the two ledgers stand for the database queried by
`get_ventas` and `obtener_gastos_totales_con_automaticos`. -/
def calcular_factor_absorcion_servicios
    (ventas : List Venta) (gastos : List Gasto) : FactorAbsorcion :=
  let gt := obtener_gastos_totales_con_automaticos ventas gastos
  let df_gastos := gastosParaFactor gt
  let gastos_fijos :=
    sumBy (df_gastos.filter (fun g => g.tipo = "FIJO")) (·.total_pct_se)
  let gastos_variables :=
    sumBy (df_gastos.filter (fun g => g.tipo = "VARIABLE")) (·.total_pct_se)
  let ingresos :=
    sumBy (ventas.filter (fun v => v.tipo_re_se = "SE")) (·.total)
  mkFactorAbsorcion ingresos gastos_fijos gastos_variables

/-- `calcular_factor_absorcion_servicios` with `por_sucursal=True`: one
result per distinct branch of the sales ledger. -/
def calcular_factor_absorcion_servicios_por_sucursal
    (ventas : List Venta) (gastos : List Gasto) :
    List (String × FactorAbsorcion) :=
  let gt := obtener_gastos_totales_con_automaticos ventas gastos
  let df_gastos := gastosParaFactor gt
  (sucursalesDe ventas).map (fun s =>
    let df_ventas_suc := ventasDeSucursal ventas s
    let ingresos :=
      sumBy (df_ventas_suc.filter (fun v => v.tipo_re_se = "SE")) (·.total)
    let df_gastos_suc := df_gastos.filter (fun g => g.sucursal = s)
    let gastos_fijos :=
      sumBy (df_gastos_suc.filter (fun g => g.tipo = "FIJO")) (·.total_pct_se)
    let gastos_variables :=
      sumBy (df_gastos_suc.filter (fun g => g.tipo = "VARIABLE"))
        (·.total_pct_se)
    (s, mkFactorAbsorcion ingresos gastos_fijos gastos_variables))

/-- `calcular_factor_absorcion_repuestos` (global scope). -/
def calcular_factor_absorcion_repuestos
    (ventas : List Venta) (gastos : List Gasto) : FactorAbsorcion :=
  let gt := obtener_gastos_totales_con_automaticos ventas gastos
  let df_gastos := gastosParaFactor gt
  let gastos_fijos :=
    sumBy (df_gastos.filter (fun g => g.tipo = "FIJO")) (·.total_pct_re)
  let gastos_variables :=
    sumBy (df_gastos.filter (fun g => g.tipo = "VARIABLE")) (·.total_pct_re)
  let ingresos :=
    sumBy (ventas.filter (fun v => v.tipo_re_se = "RE")) (·.total)
  mkFactorAbsorcion ingresos gastos_fijos gastos_variables

/-- `calcular_factor_absorcion_repuestos` with `por_sucursal=True`. -/
def calcular_factor_absorcion_repuestos_por_sucursal
    (ventas : List Venta) (gastos : List Gasto) :
    List (String × FactorAbsorcion) :=
  let gt := obtener_gastos_totales_con_automaticos ventas gastos
  let df_gastos := gastosParaFactor gt
  (sucursalesDe ventas).map (fun s =>
    let df_ventas_suc := ventasDeSucursal ventas s
    let ingresos :=
      sumBy (df_ventas_suc.filter (fun v => v.tipo_re_se = "RE")) (·.total)
    let df_gastos_suc := df_gastos.filter (fun g => g.sucursal = s)
    let gastos_fijos :=
      sumBy (df_gastos_suc.filter (fun g => g.tipo = "FIJO")) (·.total_pct_re)
    let gastos_variables :=
      sumBy (df_gastos_suc.filter (fun g => g.tipo = "VARIABLE"))
        (·.total_pct_re)
    (s, mkFactorAbsorcion ingresos gastos_fijos gastos_variables))

/-- `calcular_factor_absorcion_postventa` (global scope): fixed/variable
sums over both allocation columns, revenue over every sale. -/
def calcular_factor_absorcion_postventa
    (ventas : List Venta) (gastos : List Gasto) : FactorAbsorcion :=
  let gt := obtener_gastos_totales_con_automaticos ventas gastos
  let df_gastos := gastosParaFactor gt
  let fijos := df_gastos.filter (fun g => g.tipo = "FIJO")
  let varRows := df_gastos.filter (fun g => g.tipo = "VARIABLE")
  let gastos_fijos := sumBy fijos (·.total_pct_se) + sumBy fijos (·.total_pct_re)
  let gastos_variables :=
    sumBy varRows (·.total_pct_se) + sumBy varRows (·.total_pct_re)
  let ingresos := sumBy ventas (·.total)
  mkFactorAbsorcion ingresos gastos_fijos gastos_variables

/-- `calcular_factor_absorcion_postventa` with `por_sucursal=True`. -/
def calcular_factor_absorcion_postventa_por_sucursal
    (ventas : List Venta) (gastos : List Gasto) :
    List (String × FactorAbsorcion) :=
  let gt := obtener_gastos_totales_con_automaticos ventas gastos
  let df_gastos := gastosParaFactor gt
  (sucursalesDe ventas).map (fun s =>
    let df_ventas_suc := ventasDeSucursal ventas s
    let ingresos := sumBy df_ventas_suc (·.total)
    let df_gastos_suc := df_gastos.filter (fun g => g.sucursal = s)
    let fijos := df_gastos_suc.filter (fun g => g.tipo = "FIJO")
    let varRows := df_gastos_suc.filter (fun g => g.tipo = "VARIABLE")
    let gastos_fijos :=
      sumBy fijos (·.total_pct_se) + sumBy fijos (·.total_pct_re)
    let gastos_variables :=
      sumBy varRows (·.total_pct_se) + sumBy varRows (·.total_pct_re)
    (s, mkFactorAbsorcion ingresos gastos_fijos gastos_variables))

/-- Result record of `calcular_punto_equilibrio`. -/
structure PuntoEquilibrio where
  punto_equilibrio : ℚ
  ingresos_actuales : ℚ
  gastos_totales : ℚ
  diferencia : ℚ
deriving DecidableEq

/-- `calcular_punto_equilibrio` (global scope): the break-even level is the
total post-sale expense (`gastos_postventa_total`), compared against
summed revenue. -/
def calcular_punto_equilibrio
    (ventas : List Venta) (gastos : List Gasto) : PuntoEquilibrio :=
  let gt := obtener_gastos_totales_con_automaticos ventas gastos
  let gastos_total := gt.gastos_postventa_total
  let ingresos_actuales := sumBy ventas (·.total)
  { punto_equilibrio := gastos_total
    ingresos_actuales
    gastos_totales := gastos_total
    diferencia := ingresos_actuales - gastos_total }

/-- `calcular_punto_equilibrio` with `por_sucursal=True`. -/
def calcular_punto_equilibrio_por_sucursal
    (ventas : List Venta) (gastos : List Gasto) :
    List (String × PuntoEquilibrio) :=
  let gt := obtener_gastos_totales_con_automaticos ventas gastos
  (sucursalesDe ventas).map (fun s =>
    let ingresos_suc := sumBy (ventasDeSucursal ventas s) (·.total)
    let df_gastos_suc := gt.gastos_todos.filter (fun g => g.sucursal = s)
    let gastos_suc :=
      sumBy df_gastos_suc (·.total_pct_se) + sumBy df_gastos_suc (·.total_pct_re)
    (s, { punto_equilibrio := gastos_suc
          ingresos_actuales := ingresos_suc
          gastos_totales := gastos_suc
          diferencia := ingresos_suc - gastos_suc }))

/-! ## ai_analysis.py — context resolution, critical alerts, forecasting -/

/-- `_resolve_gastos_context`: preference order is the supplied context,
then totals recomputed from the expense frame, then the database fallback
(whose ledgers are the trailing parameters).  The intermediate `monto`
column fallback reads a column that the `gastos` schema does not carry,
so it contributes `0` and the chain moves on to `total_pct`;
`gastos_automaticos` is `None` in that branch, modelled as `[]`. -/
def resolve_gastos_context (df_gastos : List Gasto)
    (gastos_context : Option GastosTotales)
    (dbVentas : List Venta) (dbGastos : List Gasto) : GastosTotales :=
  match gastos_context with
  | some ctx => ctx
  | none =>
    if 0 < df_gastos.length then
      let total_se := sumBy df_gastos (·.total_pct_se)
      let total_re := sumBy df_gastos (·.total_pct_re)
      let total0 := total_se + total_re
      let total := if total0 = 0 then sumBy df_gastos (·.total_pct) else total0
      { gastos_registrados := df_gastos
        gastos_automaticos := []
        gastos_todos := df_gastos
        gastos_postventa_total := total
        gastos_se_total := total_se
        gastos_re_total := total_re }
    else obtener_gastos_totales_con_automaticos dbVentas dbGastos

/-- A critical alert; the free-text `descripcion` and the wall-clock
`fecha_deteccion` are not modelled. -/
structure Alerta where
  tipo : String
  titulo : String
  severidad : String
deriving DecidableEq

/-- `df['cliente']` group sums; the `sort_values(descending).iloc[0]` of
rule 5 is their maximum. -/
def topClienteTotal (ventas : List Venta) : ℚ :=
  ((((ventas.map (·.cliente)).dedup).map (fun c =>
    sumBy (ventas.filter (fun v => v.cliente = c)) (·.total))).max?).getD 0

/-- Rule 1 of `detect_critical_alerts`: sales collapse of more than 70%
between the trailing 7-day window and the 7 days before it. -/
def alertaRegla1 (ventas : List Venta) : List Alerta :=
  if 14 ≤ ventas.length then
    let fechaMax := ((ventas.map (·.fecha)).max?).getD 0
    let ultimos := ventas.filter (fun v => fechaMax - 7 < v.fecha)
    let anteriores := ventas.filter
      (fun v => fechaMax - 14 < v.fecha ∧ v.fecha ≤ fechaMax - 7)
    if 0 < anteriores.length ∧ 0 < ultimos.length then
      let ventas_ultimas := sumBy ultimos (·.total)
      let ventas_anteriores := sumBy anteriores (·.total)
      if 0 < ventas_anteriores then
        let caida_pct :=
          (ventas_anteriores - ventas_ultimas) / ventas_anteriores * 100
        if 70 < caida_pct then
          [{ tipo := "CRITICA", titulo := "🚨 Caída Drástica de Ventas"
             severidad := "ALTA" }]
        else []
      else []
    else []
  else []

/-- Rule 2: total post-sale expense exceeds total revenue (only evaluated
over a non-empty expense frame). -/
def alertaRegla2 (ventas : List Venta) (gastos : List Gasto)
    (gastos_postventa_total : ℚ) : List Alerta :=
  if 0 < gastos.length then
    let total_ingresos := sumBy ventas (·.total)
    if total_ingresos < gastos_postventa_total then
      [{ tipo := "CRITICA", titulo := "🚨 Gastos Superan Ingresos"
         severidad := "ALTA" }]
    else []
  else []

/-- Rule 3: thin margin, strictly between 0% and 5%. -/
def alertaRegla3 (ventas : List Venta) (gastos : List Gasto)
    (gastos_postventa_total : ℚ) : List Alerta :=
  if 0 < gastos.length then
    let total_ingresos := sumBy ventas (·.total)
    if 0 < total_ingresos then
      let margen_pct :=
        (total_ingresos - gastos_postventa_total) / total_ingresos * 100
      if margen_pct < 5 ∧ 0 < margen_pct then
        [{ tipo := "CRITICA", titulo := "⚠️ Margen Crítico"
           severidad := "MEDIA" }]
      else []
    else []
  else []

/-- Rule 4: more than 10 days without a sale relative to the cut-off. -/
def alertaRegla4 (ventas : List Venta) (referencia : Int) : List Alerta :=
  let fechaMax := ((ventas.map (·.fecha)).max?).getD 0
  let dias_sin_venta := referencia - fechaMax
  if 10 < dias_sin_venta then
    [{ tipo := "CRITICA", titulo := "🚨 Sin Ventas Recientes"
       severidad := "ALTA" }]
  else []

/-- Rule 5: a single client concentrates strictly more than 80% of
revenue. -/
def alertaRegla5 (ventas : List Venta) : List Alerta :=
  let top_cliente := topClienteTotal ventas
  let total_ventas := sumBy ventas (·.total)
  let concentracion :=
    if 0 < total_ventas then top_cliente / total_ventas * 100 else 0
  if 80 < concentracion then
    [{ tipo := "CRITICA", titulo := "⚠️ Alta Dependencia de Cliente"
       severidad := "MEDIA" }]
  else []

/-- `detect_critical_alerts`: the five threshold rules, emitted in source
order.  `referencia` is the resolved cut-off date (`referencia_corte or
fecha_fin or now`); `dbVentas`/`dbGastos` feed the context fallback. -/
def detect_critical_alerts (ventas : List Venta) (gastos : List Gasto)
    (gastos_context : Option GastosTotales)
    (dbVentas : List Venta) (dbGastos : List Gasto)
    (referencia : Int) : List Alerta :=
  let ctx := resolve_gastos_context gastos gastos_context dbVentas dbGastos
  let gastos_postventa_total := ctx.gastos_postventa_total
  if ventas.length = 0 then []
  else
    alertaRegla1 ventas ++
    alertaRegla2 ventas gastos gastos_postventa_total ++
    alertaRegla3 ventas gastos gastos_postventa_total ++
    alertaRegla4 ventas referencia ++
    alertaRegla5 ventas

/-- A forecast record; the per-call wall-clock pieces and the formatted
message text are carried as far as the arithmetic determines them. -/
structure Prediccion where
  prediccion : Option ℚ
  confianza : String
  mensaje : String
  metodo : String
  promedio_diario : Option ℚ
  promedio_diario_habil : Option ℚ
  dias_habiles : Option Nat
  horizonte_dias : Option Nat
  predicciones_individuales : List (String × ℚ)
deriving DecidableEq

/-- `_future_working_mask`: mask over the next `horizon` days after
`last_date` (falling back to `now` for a missing date), Monday..Saturday
weighted 1, Sunday 0; degenerates to an all-ones mask when no working day
lands in the horizon. -/
def future_working_mask (last_date : Option Int) (now : Int)
    (horizon : Nat := 30) : List ℚ × Nat :=
  let base := last_date.getD now
  let future_dates := (List.range horizon).map (fun i => base + (i + 1 : Int))
  let mask := future_dates.map (fun d => if weekday d < 6 then (1 : ℚ) else 0)
  let working_days := (future_dates.filter (fun d => weekday d < 6)).length
  if working_days = 0 then (List.replicate horizon (1 : ℚ), horizon)
  else (mask, working_days)

/-- Distinct values of a list sorted ascending, as pandas `groupby` keys. -/
def sortedKeys {α : Type} [DecidableEq α] [LinearOrder α]
    (l : List α) : List α :=
  l.dedup.insertionSort (· ≤ ·)

/-- `groupby(fecha.dt.date)['total'].sum()`: per-day revenue, keyed and
sorted by day. -/
def dailyTotals (ventas : List Venta) : List (Int × ℚ) :=
  (sortedKeys (ventas.map (·.fecha))).map
    (fun d => (d, sumBy (ventas.filter (fun v => v.fecha = d)) (·.total)))

/-- `predict_next_month_simple`: trailing-14-day daily average times the
working-day count; confidence from the coefficient of variation of daily
sums (`cv = std/mean` when `mean > 0`, else `1`), thresholds 0.3/0.6. -/
def predict_next_month_simple (now : Int) (ventas : List Venta) : Prediccion :=
  if ventas.length < 7 then
    { prediccion := none, confianza := "Baja"
      mensaje := "Se necesitan más datos para hacer una predicción confiable"
      metodo := "Promedio Simple"
      promedio_diario := none, promedio_diario_habil := none
      dias_habiles := none, horizonte_dias := none
      predicciones_individuales := [] }
  else
    let fechaMax := ((ventas.map (·.fecha)).max?).getD 0
    let fecha_limite := fechaMax - 14
    let recientes := ventas.filter (fun v => fecha_limite < v.fecha)
    if recientes.length = 0 then
      { prediccion := none, confianza := "Baja"
        mensaje := "No hay datos recientes suficientes"
        metodo := "Promedio Simple"
        promedio_diario := none, promedio_diario_habil := none
        dias_habiles := none, horizonte_dias := none
        predicciones_individuales := [] }
    else
      let maxR := ((recientes.map (·.fecha)).max?).getD 0
      let minR := ((recientes.map (·.fecha)).min?).getD 0
      let dias_activos := maxR - minR + 1
      let promedio_diario :=
        sumBy recientes (·.total) / ((max dias_activos 1 : Int) : ℚ)
      let projection_days : Nat := 30
      let wm := future_working_mask (some maxR) now projection_days
      let working_days := wm.2
      let prediccion := promedio_diario * (working_days : ℚ)
      let daily := (dailyTotals recientes).map (·.2)
      let confianza :=
        match svariance daily with
        | none => "Baja"
        | some v =>
          if 0 < promedio_diario then
            if cvLt v promedio_diario (3 / 10) then "Alta"
            else if cvLt v promedio_diario (6 / 10) then "Media"
            else "Baja"
          else "Baja"
      let promedio_diario_habil :=
        if working_days = projection_days then promedio_diario
        else prediccion / (working_days : ℚ)
      { prediccion := some prediccion
        confianza
        mensaje := s!"Basado en el promedio diario de {promedio_diario} USD"
        metodo := "Promedio Simple"
        promedio_diario := some promedio_diario
        promedio_diario_habil := some promedio_diario_habil
        dias_habiles := some working_days
        horizonte_dias := some projection_days
        predicciones_individuales := [] }

/-- Lines 735-772 of `ai_analysis.py`: combine the forecasts the
individual strategies produced.  Arithmetic mean; confidence from the
population coefficient of variation across strategies (`cv = std/mean`
when `mean > 0`, else `1`), thresholds 0.15/0.30, `Media` for a single
strategy; falls back to the simple method when no strategy succeeded. -/
def combinar_predicciones (predicciones : List ℚ)
    (metodos_usados : List String) (working_days : Nat)
    (fallback : Prediccion) : Prediccion :=
  if predicciones.length = 0 then fallback
  else
    let prediccion_final := listMean predicciones
    let confianza :=
      if 2 ≤ predicciones.length then
        if 0 < prediccion_final then
          if cvLt (pvariance predicciones) prediccion_final (15 / 100) then
            "Alta"
          else if cvLt (pvariance predicciones) prediccion_final (30 / 100) then
            "Media"
          else "Baja"
        else "Baja"
      else "Media"
    let joined := String.intercalate " + " metodos_usados
    let n := metodos_usados.length
    let metodo_str :=
      if 1 < metodos_usados.length then
        joined ++ s!" (Promedio de {n} modelos)"
      else joined
    let projection_days : Nat := 30
    let promedio_diario := prediccion_final / (projection_days : ℚ)
    { prediccion := some prediccion_final
      confianza
      mensaje := s!"Basado en {metodo_str}"
      metodo := metodo_str
      promedio_diario := some promedio_diario
      promedio_diario_habil :=
        some (if working_days ≠ 0 then prediccion_final / (working_days : ℚ)
              else promedio_diario)
      dias_habiles := some working_days
      horizonte_dias := some projection_days
      predicciones_individuales := metodos_usados.zip predicciones }

/-- `predict_next_month_advanced`.  The Prophet/ARIMA/linear-regression
fits are capability-gated external strategies (availability flags and
convergence are outside the arithmetic model); `strategies` carries the
`(name, masked 30-day sum)` of each strategy that succeeded, in source
attempt order. -/
def predict_next_month_advanced (strategies : List (String × ℚ))
    (now : Int) (ventas : List Venta) : Prediccion :=
  if ventas.length < 7 then predict_next_month_simple now ventas
  else
    let ventas_diarias := dailyTotals ventas
    if ventas_diarias.length < 7 then predict_next_month_simple now ventas
    else
      let last_date := ((ventas_diarias.map (·.1)).max?).getD 0
      let wm := future_working_mask (some last_date) now 30
      combinar_predicciones (strategies.map (·.2)) (strategies.map (·.1))
        wm.2 (predict_next_month_simple now ventas)

/-! ## ai_analysis.py — anomalies, recommendations, aggregator -/

/-- An anomaly record; the free-text `descripcion` is not modelled. -/
structure Anomalia where
  tipo : String
  fecha : String
  valor : ℚ
  categoria : String
deriving DecidableEq

/-- The seven weekday names in the alphabetical order in which a pandas
`groupby(day_name)` iterates its keys. -/
def allDayNames : List String :=
  ["Friday", "Monday", "Saturday", "Sunday", "Thursday", "Tuesday",
   "Wednesday"]

/-- Rendering of a pandas weekly period (`str(period)`): start/end dates
of the Monday..Sunday week. -/
def weekPeriodStr (w : Int) : String :=
  let a := dateStr (7 * w - 3)
  let b := dateStr (7 * w + 3)
  s!"{a}/{b}"

/-- Sales sorted by date (`sort_values('fecha')`; only the date sequence
matters to the gap pass, so tie order is irrelevant). -/
def ventasPorFecha (ventas : List Venta) : List Venta :=
  ventas.insertionSort (fun a b => a.fecha ≤ b.fecha)

/-- Outlier pass of `detect_anomalies_advanced`: rows beyond three sample
standard deviations are selected, but only the high side is reported. -/
def anomaliasPass1 (ventas : List Venta) : List Anomalia :=
  let totals := ventas.map (·.total)
  let media := listMean totals
  let v := svariance totals
  (ventas.filter (fun x =>
      gtMeanPlusKStd x.total media 3 v ||
      ltMeanMinusKStd x.total media 3 v)).filterMap
    (fun x =>
      if gtMeanPlusKStd x.total media 3 v then
        some { tipo := "Venta Excepcionalmente Alta"
               fecha := dateStr x.fecha, valor := x.total
               categoria := "Valor Atípico" }
      else none)

/-- Weekday-pattern pass: weekday averages more than two standard
deviations below the cross-weekday mean (groupby keys alphabetical). -/
def anomaliasPass2 (ventas : List Venta) : List Anomalia :=
  if 7 ≤ ventas.length then
    let presentes := allDayNames.filter
      (fun dn => ventas.any (fun x => dayName x.fecha = dn))
    let ventas_por_dia := presentes.map (fun dn =>
      (dn, listMean ((ventas.filter
        (fun x => dayName x.fecha = dn)).map (·.total))))
    let medias := ventas_por_dia.map (·.2)
    let media_diaria := listMean medias
    let vd := svariance medias
    ventas_por_dia.filterMap (fun p =>
      if ltMeanMinusKStd p.2 media_diaria 2 vd then
        let dn := p.1
        some { tipo := "Patrón Temporal Anómalo", fecha := s!"Día: {dn}"
               valor := p.2, categoria := "Patrón Temporal" }
      else none)
  else []

/-- Week-over-week pass: consecutive non-empty weekly buckets whose total
changes by more than 50%. -/
def anomaliasPass3 (ventas : List Venta) : List Anomalia :=
  if 14 ≤ ventas.length then
    let semanas := sortedKeys (ventas.map (fun x => weekPeriod x.fecha))
    let ventas_semanales := semanas.map (fun w =>
      (w, sumBy (ventas.filter (fun x => weekPeriod x.fecha = w)) (·.total)))
    if 3 ≤ ventas_semanales.length then
      (ventas_semanales.zip ventas_semanales.tail).filterMap (fun pq =>
        let previa := pq.1
        let actual := pq.2
        let cambio :=
          if 0 < previa.2 then (actual.2 - previa.2) / previa.2 * 100 else 0
        if 50 < |cambio| then
          let tc := if 0 < cambio then "aumento" else "caída"
          some { tipo := s!"Cambio Abrupto de Tendencia ({tc})"
                 fecha := weekPeriodStr actual.1, valor := actual.2
                 categoria := "Tendencia" }
        else none)
    else []
  else []

/-- Gap pass: consecutive date-sorted rows more than seven days apart. -/
def anomaliasPass4 (ventas : List Venta) : List Anomalia :=
  let ordenadas := ventasPorFecha ventas
  (ordenadas.zip ordenadas.tail).filterMap (fun pq =>
    let dias_diferencia := pq.2.fecha - pq.1.fecha
    if 7 < dias_diferencia then
      let d1 := dateStr pq.1.fecha
      let d2 := dateStr pq.2.fecha
      some { tipo := "Período Sin Ventas", fecha := s!"{d1} a {d2}"
             valor := 0, categoria := "Temporal" }
    else none)

/-- `detect_anomalies_advanced`: the four passes, concatenated in source
order.  Standard-deviation comparisons are encoded over `ℚ` via
`gtMeanPlusKStd` / `ltMeanMinusKStd` (sample deviation, `NaN`-aware). -/
def detect_anomalies_advanced (ventas : List Venta) (gastos : List Gasto) :
    List Anomalia :=
  if ventas.length = 0 then []
  else
    anomaliasPass1 ventas ++ anomaliasPass2 ventas ++
    anomaliasPass3 ventas ++ anomaliasPass4 ventas

/-- `generate_recommendations`: client concentration, branch imbalance and
seasonality hints (`variacion > 0.3` encoded over `ℚ` by squaring). -/
def generate_recommendations (ventas : List Venta) (gastos : List Gasto) :
    List String :=
  if ventas.length = 0 then []
  else
    let clientes := (ventas.map (·.cliente)).dedup
    let sumasClientes := clientes.map (fun c =>
      sumBy (ventas.filter (fun v => v.cliente = c)) (·.total))
    let top5 := (sumasClientes.insertionSort (fun a b => b ≤ a)).take 5
    let total_ventas := sumBy ventas (·.total)
    let concentracion :=
      if 0 < total_ventas then top5.sum / total_ventas * 100 else 0
    let r1 :=
      if 50 < concentracion then
        [s!"💼 Los 5 principales clientes representan el {concentracion}% de las ventas. Considerar diversificar la cartera"]
      else []
    let r2 :=
      let sucs := sortedKeys (ventas.map (·.sucursal))
      let sumasSuc := sucs.map (fun s =>
        (s, sumBy (ventasDeSucursal ventas s) (·.total)))
      if 1 < sumasSuc.length then
        let vals := sumasSuc.map (·.2)
        let minV := (vals.min?).getD 0
        let maxV := (vals.max?).getD 0
        let desbalance := if 0 < minV then maxV / minV else 0
        if 3 < desbalance then
          let smax := (((sumasSuc.find? (fun p => p.2 = maxV)).map (·.1)).getD "")
          let smin := (((sumasSuc.find? (fun p => p.2 = minV)).map (·.1)).getD "")
          [s!"🏢 Hay un desbalance significativo entre {smax} y {smin}. Revisar estrategias por sucursal"]
        else []
      else []
    let r3 :=
      if 30 ≤ ventas.length then
        let meses := sortedKeys (ventas.map (fun v => monthOfDay v.fecha))
        let sums := meses.map (fun m =>
          sumBy (ventas.filter (fun v => monthOfDay v.fecha = m)) (·.total))
        if 1 < sums.length then
          let media := listMean sums
          match svariance sums with
          | some vv =>
            if 0 < media ∧ (3 / 10 : ℚ) ^ 2 * media ^ 2 < vv then
              [s!"📅 Se detecta variabilidad estacional significativa ({vv}). Considerar planificación estacional"]
            else []
          | none => []
        else []
      else []
    r1 ++ r2 ++ r3

/-- Python `round(x, 2)` over `ℚ` (the half-to-even tie rule, reachable
only at exact half-cents, is modelled as round-half-up). -/
def round2 (x : ℚ) : ℚ :=
  ((round (x * 100) : ℤ) : ℚ) / 100

/-- One row of `_build_branch_results`. -/
structure BranchResult where
  sucursal : String
  ingresos : ℚ
  gastos : ℚ
  resultado : ℚ
deriving DecidableEq

/-- `_build_branch_results`: per-branch revenue and expense (rows whose
branch upper-cases to `COMPARTIDOS` excluded), outer-merged on the branch
key, missing sides filled with 0, result column appended, rounded. -/
def build_branch_results (ventas : List Venta) (gastos : List Gasto) :
    List BranchResult :=
  let iv := ventas.filter (fun v => v.sucursal.toUpper ≠ "COMPARTIDOS")
  let gv := gastos.filter (fun g => g.sucursal.toUpper ≠ "COMPARTIDOS")
  let ingresosKeys := sortedKeys (iv.map (·.sucursal))
  let gastosKeys := sortedKeys (gv.map (·.sucursal))
  if ingresosKeys.length = 0 ∧ gastosKeys.length = 0 then []
  else
    let allKeys := sortedKeys (ingresosKeys ++ gastosKeys)
    allKeys.map (fun s =>
      let ing := sumBy (iv.filter (fun v => v.sucursal = s)) (·.total)
      let gas := sumBy (gv.filter (fun g => g.sucursal = s)) (·.total_pct)
      { sucursal := s, ingresos := round2 ing, gastos := round2 gas
        resultado := round2 (ing - gas) })

/-- The four local narrative sections built by `_build_fallback_sections`. -/
structure FallbackSections where
  recomendaciones_sucursales : List String
  recomendaciones_mix : List String
  oportunidades : List String
  riesgos : List String
deriving DecidableEq

/-- `_build_fallback_sections`: worst/best-branch advice, deficits, a
quick-win opportunity and one mix recommendation. -/
def build_fallback_sections (resultados : List BranchResult)
    (share_servicios share_repuestos : ℚ) : FallbackSections :=
  let vacio : BranchResult := { sucursal := "", ingresos := 0, gastos := 0, resultado := 0 }
  let secciones :=
    if resultados.length ≠ 0 then
      let ordenados := resultados.insertionSort (fun a b => a.resultado ≤ b.resultado)
      let worst := (ordenados.head?).getD vacio
      let best := (ordenados.getLast?).getD vacio
      let ws := worst.sucursal
      let wi := worst.ingresos
      let wg := worst.gastos
      let bs := best.sucursal
      let br := best.resultado
      let rec_suc :=
        [s!"{ws} aporta {wi} frente a gastos de {wg}. Activar acciones comerciales y revisar gastos fijos.",
         s!"Replicar las palancas de {bs} (resultado {br}) en sucursales más chicas."]
      let deficits := (ordenados.filter (fun r => r.resultado < 0)).map
        (fun r =>
          let rs := r.sucursal
          let rd := |r.resultado|
          s!"{rs} está en déficit de {rd}.")
      let riesgos :=
        if deficits = [] then
          let wr := worst.resultado
          [s!"{ws} es la más ajustada (resultado {wr})."]
        else deficits
      let low_volume := resultados.insertionSort (fun a b => a.ingresos ≤ b.ingresos)
      let oportunidades :=
        match low_volume.find? (fun r => 0 < r.resultado) with
        | some r =>
          let rs := r.sucursal
          let ri := r.ingresos
          [s!"{rs} tiene margen positivo con bajo volumen ({ri}). Escalar servicios allí generará impacto rápido."]
        | none =>
          [s!"{bs} lidera el resultado. Profundizar cross-selling para sostener el liderazgo."]
      (rec_suc, oportunidades, riesgos)
    else ([], [], [])
  let rec_mix :=
    if 6 / 10 ≤ share_servicios then
      ["Los servicios explican más del 60% del mix. Impulsar repuestos de mostrador y paquetes de mantenimiento para equilibrar el margen."]
    else if 6 / 10 ≤ share_repuestos then
      ["Los repuestos dominan el mix. Ofrecer bundles con mano de obra para aumentar horas facturables."]
    else
      ["El mix RE/SE está equilibrado. Mantener campañas combinadas para sostener el aporte."]
  { recomendaciones_sucursales := secciones.1
    recomendaciones_mix := rec_mix
    oportunidades := secciones.2.1
    riesgos := secciones.2.2 }

/-- The productivity context dictionary. -/
structure Productividad where
  ingresos_mo_asistencia : ℚ
  horas_vendidas : ℚ
  horas_disponibles : ℚ
  dias_habiles : Int
  tarifa : ℚ
  tecnicos : Int
  productividad_pct : ℚ
deriving DecidableEq

/-- The three local insight lists of the bundle. -/
structure Insights where
  tendencias : List String
  alertas : List String
  recomendaciones : List String
deriving DecidableEq

/-- The AnalysisBundle handed back by `get_ai_summary` (connector status
and wall-clock timestamp omitted). -/
structure AISummary where
  insights : Insights
  prediccion : Prediccion
  anomalias : List Anomalia
  recomendaciones : List String
  alertas_criticas : List Alerta
  recomendaciones_sucursales : List String
  recomendaciones_mix : List String
  oportunidades : List String
  riesgos : List String
  top_clientes_detalle : List (String × String × ℚ)
  productividad : Option Productividad
deriving DecidableEq

/-- Service-channel revenue of the whole ledger. -/
def mixServicios (ventas : List Venta) : ℚ :=
  sumBy (ventas.filter (fun v => v.tipo_re_se = "SE")) (·.total)

/-- Parts-channel revenue of the whole ledger. -/
def mixRepuestos (ventas : List Venta) : ℚ :=
  sumBy (ventas.filter (fun v => v.tipo_re_se = "RE")) (·.total)

/-- `share_servicios` as left by the sales-analysis block of
`get_ai_summary` (initialised to 0, set only under the two guards). -/
def shareServicios (ventas : List Venta) : ℚ :=
  let total_mix := mixServicios ventas + mixRepuestos ventas
  if 0 < ventas.length ∧ 0 < total_mix then mixServicios ventas / total_mix
  else 0

/-- `share_repuestos`, symmetric to `shareServicios`. -/
def shareRepuestos (ventas : List Venta) : ℚ :=
  let total_mix := mixServicios ventas + mixRepuestos ventas
  if 0 < ventas.length ∧ 0 < total_mix then mixRepuestos ventas / total_mix
  else 0

/-- Sales-analysis block of `get_ai_summary`: monthly trend direction and
service/parts mix messages. -/
def tendenciasVentas (ventas : List Venta) : List String :=
  if 0 < ventas.length then
    let ventas_mensuales :=
      (sortedKeys (ventas.map (fun v => monthPeriod v.fecha))).map (fun m =>
        sumBy (ventas.filter (fun v => monthPeriod v.fecha = m)) (·.total))
    let t1 :=
      if 1 < ventas_mensuales.length then
        let ult := (ventas_mensuales.getLast?).getD 0
        let ant := ((ventas_mensuales.dropLast).getLast?).getD 0
        if ant < ult then
          ["📈 Las ventas muestran una tendencia creciente dentro del período seleccionado."]
        else if ult < ant then
          ["📉 Las ventas muestran una tendencia decreciente dentro del período seleccionado."]
        else []
      else []
    let share_servicios := shareServicios ventas
    let share_repuestos := shareRepuestos ventas
    let t2 :=
      if 0 < mixServicios ventas + mixRepuestos ventas then
        [s!"⚖️ Mix del período: Servicios {share_servicios} vs Repuestos {share_repuestos}."] ++
        (if 6 / 10 ≤ share_servicios then
          ["🔧 Los servicios explican más del 60% del mix y sostienen la contribución."]
        else if 6 / 10 ≤ share_repuestos then
          ["⚙️ Los repuestos concentran más del 60% del mix y apalancan la rentabilidad."]
        else [])
      else []
    t1 ++ t2
  else []

/-- Expenses-versus-revenue block of `get_ai_summary`: the pair of
(trend, alert) message lists it contributes. -/
def margenMensajes (ventas : List Venta) (gastos : List Gasto)
    (gastos_postventa_total : ℚ) : List String × List String :=
  if 0 < ventas.length ∧ 0 < gastos.length then
    let total_ingresos := sumBy ventas (·.total)
    let margen := total_ingresos - gastos_postventa_total
    let margen_pct :=
      if 0 < total_ingresos then margen / total_ingresos * 100 else 0
    let base :=
      if margen_pct ≤ 0 then
        (([] : List String),
         ["🚨 El período cerró con pérdida operativa luego de gastos postventa."])
      else if margen_pct < 15 then
        ([], [s!"⚠️ Margen ajustado: {margen_pct}%. Hay poco colchón para absorber desvíos."])
      else
        ([s!"✅ Margen saludable del {margen_pct}% que cubre cómodamente los gastos fijos."], [])
    (base.1,
     base.2 ++
       (if total_ingresos < gastos_postventa_total then
         ["🚨 Los gastos superan los ingresos. Revisar urgentemente"]
       else []))
  else ([], [])

/-- Follow-up recommendation block of `get_ai_summary`: silence reminder
or average-ticket message. -/
def recomendacionesSeguimiento (ventas : List Venta)
    (referencia_corte : Int) : List String :=
  if 0 < ventas.length then
    let fechaMax := ((ventas.map (·.fecha)).max?).getD 0
    let dias_sin_venta := referencia_corte - fechaMax
    if 7 < dias_sin_venta then
      [s!"📅 Hace {dias_sin_venta} días que no se registran ventas. Considerar seguimiento activo."]
    else
      let ticket_promedio := listMean (ventas.map (·.total))
      [s!"🎯 Ticket promedio del período: {ticket_promedio}. Reforzar upselling para sostenerlo."]
  else []

/-- The productivity context `get_ai_summary` settles on: the caller-given
one, else a default built from SE labor revenue.  `compute_working_hours`
is neither defined nor imported in `ai_analysis.py`, so its call raises
`NameError`, the enclosing `except` catches it and the working hours
default to `(0.0, 0)`. -/
def productividadResuelta (productividad_context : Option Productividad)
    (ventas : List Venta) : Option Productividad :=
  match productividad_context with
  | some p => some p
  | none =>
    if 0 < ventas.length then
      let horas_habiles : ℚ := 0
      let dias_habiles : Int := 0
      let ventas_se_local := ventas.filter (fun v => v.tipo_re_se = "SE")
      let mano_obra_total := sumBy ventas_se_local (·.mano_obra)
      let asistencia_total := sumBy ventas_se_local (·.asistencia)
      let ingresos_mo_asistencia := mano_obra_total + asistencia_total
      let tarifa_hora : ℚ := 60
      let tecnicos_default : Int := 7
      let horas_disponibles :=
        if horas_habiles ≠ 0 ∧ tecnicos_default ≠ 0 then
          horas_habiles * (tecnicos_default : ℚ)
        else 0
      let horas_vendidas :=
        if 0 < tarifa_hora then ingresos_mo_asistencia / tarifa_hora else 0
      let productividad_pct :=
        if 0 < horas_disponibles then horas_vendidas / horas_disponibles else 0
      some { ingresos_mo_asistencia, horas_vendidas, horas_disponibles
             dias_habiles, tarifa := tarifa_hora, tecnicos := tecnicos_default
             productividad_pct }
    else none

/-- Productivity block of `get_ai_summary`: the (trend, alert,
recommendation) message lists it contributes (a present context dict is
always truthy). -/
def productividadMensajes (productividad_data : Option Productividad) :
    List String × List String × List String :=
  match productividad_data with
  | some pd =>
    let horas_disponibles := pd.horas_disponibles
    let horas_vendidas := pd.horas_vendidas
    let productividad_pct :=
      if 0 < horas_disponibles then horas_vendidas / horas_disponibles
      else pd.productividad_pct
    let ocupacion_pct := productividad_pct * 100
    ([s!"🛠️ Productividad del taller: {horas_vendidas} h vendidas vs {horas_disponibles} h disponibles ({ocupacion_pct}% de ocupación)."],
     (if ocupacion_pct < 50 then
       [s!"⚠️ Baja ocupación operativa ({ocupacion_pct}%). Incrementar horas facturables o ajustar estructura."]
     else []),
     (if ocupacion_pct < 65 then
       ["📉 Reforzar planificación diaria (turnos, viáticos y tiempos muertos) para elevar la ocupación hacia el 70%."]
     else []))
  | none => ([], [], [])

/-- `top_clientes_local`: top 10 client/branch revenue pairs, rounded. -/
def topClientesDetalle (ventas : List Venta) :
    List (String × String × ℚ) :=
  if 0 < ventas.length then
    let pares := (ventas.map (fun v => (v.cliente, v.sucursal))).dedup
    let paresOrd := pares.insertionSort
      (fun a b => a.1 < b.1 ∨ (a.1 = b.1 ∧ a.2 ≤ b.2))
    let conSumas := paresOrd.map (fun p =>
      (p.1, p.2,
       sumBy (ventas.filter (fun v => v.cliente = p.1 ∧ v.sucursal = p.2))
         (·.total)))
    ((conSumas.insertionSort (fun a b => b.2.2 ≤ a.2.2)).take 10).map
      (fun t => (t.1, t.2.1, round2 t.2.2))
  else []

/-- Local insight lists of the bundle, in source append order:
sales-analysis trends, margin messages, then productivity messages, with
the `generate_recommendations` slice spilling into the insight list only
when the latter ended empty. -/
def insightsLocales (ventas : List Venta) (gastos : List Gasto)
    (gastos_postventa_total : ℚ) (referencia_corte : Int)
    (productividad_data : Option Productividad) : Insights × List String :=
  let margenPar := margenMensajes ventas gastos gastos_postventa_total
  let prodTriple := productividadMensajes productividad_data
  let recomendaciones0 := generate_recommendations ventas gastos
  let recInsights0 :=
    recomendacionesSeguimiento ventas referencia_corte ++ prodTriple.2.2
  let recPar :=
    if recInsights0 = [] ∧ recomendaciones0 ≠ [] then
      (recInsights0 ++ recomendaciones0.take 2, recomendaciones0.drop 2)
    else (recInsights0, recomendaciones0)
  ({ tendencias := tendenciasVentas ventas ++ margenPar.1 ++ prodTriple.1
     alertas := margenPar.2 ++ prodTriple.2.1
     recomendaciones := recPar.1 },
   recPar.2)

/-- `get_ai_summary` on its deterministic local path (no Gemini key, so
the enrichment and persistence connectors are inactive; the database the
context fallback would query holds the same two ledgers).  `strategies`
feeds the forecasting ensemble as in `predict_next_month_advanced`. -/
def get_ai_summary (strategies : List (String × ℚ))
    (fecha_fin : Option Int) (now : Int)
    (productividad_context : Option Productividad)
    (ventas : List Venta) (gastos : List Gasto)
    (gastos_context : Option GastosTotales) : AISummary :=
  let gastos_totales_ctx :=
    resolve_gastos_context gastos gastos_context ventas gastos
  let gastos_postventa_total := gastos_totales_ctx.gastos_postventa_total
  let referencia_corte := fecha_fin.getD now
  let fallback_sections := build_fallback_sections
    (build_branch_results ventas gastos) (shareServicios ventas)
    (shareRepuestos ventas)
  let productividad_data := productividadResuelta productividad_context ventas
  let par := insightsLocales ventas gastos gastos_postventa_total
    referencia_corte productividad_data
  { insights := par.1
    prediccion := predict_next_month_advanced strategies now ventas
    anomalias := detect_anomalies_advanced ventas gastos
    recomendaciones := par.2
    alertas_criticas := detect_critical_alerts ventas gastos
      (some gastos_totales_ctx) ventas gastos referencia_corte
    recomendaciones_sucursales := fallback_sections.recomendaciones_sucursales
    recomendaciones_mix := fallback_sections.recomendaciones_mix
    oportunidades := fallback_sections.oportunidades
    riesgos := fallback_sections.riesgos
    top_clientes_detalle := topClientesDetalle ventas
    productividad := productividad_data }

/-! ## Concrete sample records used by closed witnesses and
counterexamples -/

/-- A counter (`RE`) sale: parts 100, discount 80, total 20. -/
def ventaMostradorA : Venta :=
  { fecha := 0, sucursal := "SUC", cliente := "CLI", tipo_re_se := "RE"
    mano_obra := 0, asistencia := 0, repuestos := 100, terceros := 0
    descuento := 80, total := 20 }

/-- A counter (`RE`) credit note: parts and total both −100. -/
def ventaMostradorNC : Venta :=
  { fecha := 0, sucursal := "SUC", cliente := "CLI", tipo_re_se := "RE"
    mano_obra := 0, asistencia := 0, repuestos := -100, terceros := 0
    descuento := 0, total := -100 }

/-- A service (`SE`) sale with no recorded parts sub-amount. -/
def ventaServicioA : Venta :=
  { fecha := 0, sucursal := "SUC", cliente := "CLI", tipo_re_se := "SE"
    mano_obra := 60, asistencia := 0, repuestos := 0, terceros := 0
    descuento := 0, total := 100 }

/-- A manually recorded fixed expense (rent), parts-allocated 100. -/
def gastoAlquilerA : Gasto :=
  { mes := "", fecha := some 0, sucursal := "SUC", area := "REPUESTOS"
    pct_postventa := 1, pct_servicios := 0, pct_repuestos := 1
    tipo := "FIJO", clasificacion := "ALQUILER", proveedor := "X"
    total_usd := 100, total_pct := 100, total_pct_se := 0
    total_pct_re := 100, automatico := false }

/-- A manually recorded expense that carries the synthetic counter-parts
classification (should be dropped by the merge). -/
def gastoManualMostradorA : Gasto :=
  { mes := "", fecha := some 0, sucursal := "SUC", area := "REPUESTOS"
    pct_postventa := 1, pct_servicios := 0, pct_repuestos := 1
    tipo := "VARIABLE"
    clasificacion := "COSTO DE REPUESTOS VENDIDOS MOSTRADOR"
    proveedor := "JOHN DEERE", total_usd := 50, total_pct := 50
    total_pct_se := 0, total_pct_re := 50, automatico := false }

/-- One sale of 100 on each of seven consecutive days (Thu..Wed),
enough daily points for the ensemble path. -/
def ventasSemanaA : List Venta :=
  [0, 1, 2, 3, 4, 5, 6].map (fun d =>
    { fecha := d, sucursal := "SUC", cliente := "CLI", tipo_re_se := "RE"
      mano_obra := 0, asistencia := 0, repuestos := 100, terceros := 0
      descuento := 0, total := 100 })

/-! ## Shared lemmas -/

/-- Column sums distribute over pointwise addition of columns. -/
theorem sumBy_add_distrib {α : Type} (l : List α) (f g : α → ℚ) :
    sumBy l f + sumBy l g = sumBy l (fun x => f x + g x) := by
  induction l with
  | nil => simp [sumBy]
  | cons a t ih =>
    simp only [sumBy, List.map_cons, List.sum_cons] at *
    linarith [ih]

/-- The guarded absorption factor of `mkFactorAbsorcion`. -/
theorem mkFactorAbsorcion_guard (i f v : ℚ) :
    ((mkFactorAbsorcion i f v).gastos_fijos ≤ 0 →
      (mkFactorAbsorcion i f v).factor_absorcion = 0) ∧
    (0 < (mkFactorAbsorcion i f v).gastos_fijos →
      (mkFactorAbsorcion i f v).factor_absorcion =
        (mkFactorAbsorcion i f v).ingresos /
          (mkFactorAbsorcion i f v).gastos_fijos * 100) := by
  constructor
  · intro h
    simp only [mkFactorAbsorcion] at h ⊢
    rw [if_neg (not_lt.mpr h)]
  · intro h
    simp only [mkFactorAbsorcion] at h ⊢
    rw [if_pos h]

/-- Margin and operating-result identities of `mkFactorAbsorcion`. -/
theorem mkFactorAbsorcion_margen (i f v : ℚ) :
    (mkFactorAbsorcion i f v).margen =
      (mkFactorAbsorcion i f v).ingresos -
        (mkFactorAbsorcion i f v).gastos_variables ∧
    (mkFactorAbsorcion i f v).resultado_operativo =
      (mkFactorAbsorcion i f v).margen -
        (mkFactorAbsorcion i f v).gastos_fijos := by
  constructor <;> rfl

/-! ## C4 -/

/-- C4: in every scope of the service and parts absorption-factor
calculators (global and per-branch), the absorption factor equals
`revenue / fixed_cost * 100` when `fixed_cost > 0` and equals `0`
whenever `fixed_cost ≤ 0`; the computation is total (no division
error). -/
theorem C4_absorption_factor_guarded (ventas : List Venta)
    (gastos : List Gasto) :
    (((calcular_factor_absorcion_servicios ventas gastos).gastos_fijos ≤ 0 →
        (calcular_factor_absorcion_servicios ventas gastos).factor_absorcion
          = 0) ∧
      (0 < (calcular_factor_absorcion_servicios ventas gastos).gastos_fijos →
        (calcular_factor_absorcion_servicios ventas gastos).factor_absorcion =
          (calcular_factor_absorcion_servicios ventas gastos).ingresos /
            (calcular_factor_absorcion_servicios ventas gastos).gastos_fijos
            * 100)) ∧
    (((calcular_factor_absorcion_repuestos ventas gastos).gastos_fijos ≤ 0 →
        (calcular_factor_absorcion_repuestos ventas gastos).factor_absorcion
          = 0) ∧
      (0 < (calcular_factor_absorcion_repuestos ventas gastos).gastos_fijos →
        (calcular_factor_absorcion_repuestos ventas gastos).factor_absorcion =
          (calcular_factor_absorcion_repuestos ventas gastos).ingresos /
            (calcular_factor_absorcion_repuestos ventas gastos).gastos_fijos
            * 100)) ∧
    (∀ p ∈ calcular_factor_absorcion_servicios_por_sucursal ventas gastos,
      (p.2.gastos_fijos ≤ 0 → p.2.factor_absorcion = 0) ∧
      (0 < p.2.gastos_fijos →
        p.2.factor_absorcion = p.2.ingresos / p.2.gastos_fijos * 100)) ∧
    (∀ p ∈ calcular_factor_absorcion_repuestos_por_sucursal ventas gastos,
      (p.2.gastos_fijos ≤ 0 → p.2.factor_absorcion = 0) ∧
      (0 < p.2.gastos_fijos →
        p.2.factor_absorcion = p.2.ingresos / p.2.gastos_fijos * 100)) := by
  refine ⟨mkFactorAbsorcion_guard _ _ _, mkFactorAbsorcion_guard _ _ _,
    ?_, ?_⟩
  · intro p hp
    simp only [calcular_factor_absorcion_servicios_por_sucursal,
      List.mem_map] at hp
    obtain ⟨s, hs, rfl⟩ := hp
    exact mkFactorAbsorcion_guard _ _ _
  · intro p hp
    simp only [calcular_factor_absorcion_repuestos_por_sucursal,
      List.mem_map] at hp
    obtain ⟨s, hs, rfl⟩ := hp
    exact mkFactorAbsorcion_guard _ _ _

/-- Witness for C4 at a concrete ledger pair: the fixed cost is positive
and the factor matches the unguarded formula. -/
theorem C4_absorption_factor_guarded_witness :
    0 < (calcular_factor_absorcion_repuestos [ventaMostradorA]
          [gastoAlquilerA]).gastos_fijos ∧
    (calcular_factor_absorcion_repuestos [ventaMostradorA]
        [gastoAlquilerA]).factor_absorcion =
      (calcular_factor_absorcion_repuestos [ventaMostradorA]
          [gastoAlquilerA]).ingresos /
        (calcular_factor_absorcion_repuestos [ventaMostradorA]
            [gastoAlquilerA]).gastos_fijos * 100 := by
  have h : 0 < (calcular_factor_absorcion_repuestos [ventaMostradorA]
      [gastoAlquilerA]).gastos_fijos := by
    norm_num +decide [calcular_factor_absorcion_repuestos, mkFactorAbsorcion,
      obtener_gastos_totales_con_automaticos, obtener_gastos_automaticos,
      gastosParaFactor, entradasAutoSucursal, sucursalesDe, ventasDeSucursal,
      costoRepuestosMostrador, totalRepuestosMostrador,
      costoRepuestosServicios, totalRepuestosServicios,
      gastoAutoMostrador, gastoAutoServicios, sumBy, mesStrDe, fechaMaxDe,
      clasificaciones_automaticas, ventaMostradorA, gastoAlquilerA,
      COSTO_PORCENTAJE, List.filter_cons, List.dedup_cons_of_not_mem,
      List.dedup_nil, List.max?]
  exact ⟨h,
    (C4_absorption_factor_guarded [ventaMostradorA] [gastoAlquilerA]).2.1.2 h⟩

/-! ## C5 -/

/-- C5: in every result of the ratio calculator (service, parts and
post-sale, global and per-branch), margin equals revenue minus variable cost and the
operating result equals margin minus fixed cost, exactly (the `ℚ` model
is exact real arithmetic, hence within any tolerance). -/
theorem C5_margin_operating_result (ventas : List Venta)
    (gastos : List Gasto) :
    ((calcular_factor_absorcion_servicios ventas gastos).margen =
        (calcular_factor_absorcion_servicios ventas gastos).ingresos -
          (calcular_factor_absorcion_servicios ventas gastos).gastos_variables ∧
      (calcular_factor_absorcion_servicios ventas gastos).resultado_operativo =
        (calcular_factor_absorcion_servicios ventas gastos).margen -
          (calcular_factor_absorcion_servicios ventas gastos).gastos_fijos) ∧
    ((calcular_factor_absorcion_postventa ventas gastos).margen =
        (calcular_factor_absorcion_postventa ventas gastos).ingresos -
          (calcular_factor_absorcion_postventa ventas gastos).gastos_variables ∧
      (calcular_factor_absorcion_postventa ventas gastos).resultado_operativo =
        (calcular_factor_absorcion_postventa ventas gastos).margen -
          (calcular_factor_absorcion_postventa ventas gastos).gastos_fijos) ∧
    ((calcular_factor_absorcion_repuestos ventas gastos).margen =
        (calcular_factor_absorcion_repuestos ventas gastos).ingresos -
          (calcular_factor_absorcion_repuestos ventas gastos).gastos_variables ∧
      (calcular_factor_absorcion_repuestos ventas gastos).resultado_operativo =
        (calcular_factor_absorcion_repuestos ventas gastos).margen -
          (calcular_factor_absorcion_repuestos ventas gastos).gastos_fijos) ∧
    (∀ p ∈ calcular_factor_absorcion_servicios_por_sucursal ventas gastos,
      p.2.margen = p.2.ingresos - p.2.gastos_variables ∧
      p.2.resultado_operativo = p.2.margen - p.2.gastos_fijos) ∧
    (∀ p ∈ calcular_factor_absorcion_repuestos_por_sucursal ventas gastos,
      p.2.margen = p.2.ingresos - p.2.gastos_variables ∧
      p.2.resultado_operativo = p.2.margen - p.2.gastos_fijos) ∧
    (∀ p ∈ calcular_factor_absorcion_postventa_por_sucursal ventas gastos,
      p.2.margen = p.2.ingresos - p.2.gastos_variables ∧
      p.2.resultado_operativo = p.2.margen - p.2.gastos_fijos) := by
  refine ⟨mkFactorAbsorcion_margen _ _ _, mkFactorAbsorcion_margen _ _ _,
    mkFactorAbsorcion_margen _ _ _, ?_, ?_, ?_⟩
  · intro p hp
    simp only [calcular_factor_absorcion_servicios_por_sucursal,
      List.mem_map] at hp
    obtain ⟨s, hs, rfl⟩ := hp
    exact mkFactorAbsorcion_margen _ _ _
  · intro p hp
    simp only [calcular_factor_absorcion_repuestos_por_sucursal,
      List.mem_map] at hp
    obtain ⟨s, hs, rfl⟩ := hp
    exact mkFactorAbsorcion_margen _ _ _
  · intro p hp
    simp only [calcular_factor_absorcion_postventa_por_sucursal,
      List.mem_map] at hp
    obtain ⟨s, hs, rfl⟩ := hp
    exact mkFactorAbsorcion_margen _ _ _

/-- Witness for C5: a concrete per-branch result satisfies the margin and
operating-result identities. -/
theorem C5_margin_operating_result_witness :
    ∃ p ∈ calcular_factor_absorcion_servicios_por_sucursal [ventaServicioA]
        [gastoAlquilerA],
      p.2.margen = p.2.ingresos - p.2.gastos_variables ∧
      p.2.resultado_operativo = p.2.margen - p.2.gastos_fijos := by
  have hmem : ("SUC", mkFactorAbsorcion 100 0 (91 / 2)) ∈
      calcular_factor_absorcion_servicios_por_sucursal [ventaServicioA]
        [gastoAlquilerA] := by
    norm_num +decide [calcular_factor_absorcion_servicios_por_sucursal,
      mkFactorAbsorcion, obtener_gastos_totales_con_automaticos,
      obtener_gastos_automaticos, gastosParaFactor, entradasAutoSucursal,
      sucursalesDe, ventasDeSucursal, costoRepuestosMostrador,
      totalRepuestosMostrador, costoRepuestosServicios,
      totalRepuestosServicios, gastoAutoMostrador, gastoAutoServicios,
      sumBy, mesStrDe, fechaMaxDe, clasificaciones_automaticas,
      ventaServicioA, gastoAlquilerA, COSTO_PORCENTAJE, List.filter_cons,
      List.dedup_cons_of_not_mem, List.dedup_nil, List.max?]
  exact ⟨("SUC", mkFactorAbsorcion 100 0 (91 / 2)), hmem,
    (C5_margin_operating_result [ventaServicioA] [gastoAlquilerA]).2.2.2.1 _
      hmem⟩

/-! ## C2 -/

/-- C2 counterexample: on a concrete ledger pair the contribution margin
ratio `(net_revenue - variable_cost) / net_revenue` of the merged expense
ledger is ≤ 0, yet the break-even value returned is not 0 (it is the total
post-sale expense, 165). -/
theorem C2_counterexample :
    (sumBy [ventaMostradorA] (fun v => v.total) -
        sumBy (((obtener_gastos_totales_con_automaticos [ventaMostradorA]
              [gastoAlquilerA]).gastos_todos).filter
            (fun g => g.tipo = "VARIABLE"))
          (fun g => g.total_pct_se + g.total_pct_re)) /
        sumBy [ventaMostradorA] (fun v => v.total) ≤ 0 ∧
    (calcular_punto_equilibrio [ventaMostradorA]
        [gastoAlquilerA]).punto_equilibrio = 165 := by
  constructor <;>
    norm_num +decide [calcular_punto_equilibrio,
      obtener_gastos_totales_con_automaticos, obtener_gastos_automaticos,
      entradasAutoSucursal, sucursalesDe, ventasDeSucursal,
      costoRepuestosMostrador, totalRepuestosMostrador,
      costoRepuestosServicios, totalRepuestosServicios,
      gastoAutoMostrador, gastoAutoServicios, sumBy, mesStrDe, fechaMaxDe,
      clasificaciones_automaticas, ventaMostradorA, gastoAlquilerA,
      COSTO_PORCENTAJE, List.filter_cons, List.dedup_cons_of_not_mem,
      List.dedup_nil, List.max?]

/-- C2 as amended: the break-even computation performs no division at all;
it returns the total post-sale expense of the merged ledger (the sum of
both allocation columns over `gastos_todos`), and the difference equals
revenue minus that total. -/
theorem C2_break_even_is_total_expense (ventas : List Venta)
    (gastos : List Gasto) :
    (calcular_punto_equilibrio ventas gastos).punto_equilibrio =
      sumBy ((obtener_gastos_totales_con_automaticos ventas
          gastos).gastos_todos)
        (fun g => g.total_pct_se + g.total_pct_re) ∧
    (calcular_punto_equilibrio ventas gastos).diferencia =
      sumBy ventas (fun v => v.total) -
        (calcular_punto_equilibrio ventas gastos).punto_equilibrio := by
  constructor
  · exact sumBy_add_distrib _ _ _
  · rfl

/-! ## Helper lemmas on the automatic-allocation lists -/

/-- Every synthetic row a branch contributes carries that branch. -/
theorem entradas_sucursal_eq {ventas : List Venta} {s : String} {e : Gasto}
    (h : e ∈ entradasAutoSucursal ventas s) : e.sucursal = s := by
  simp only [entradasAutoSucursal] at h
  rcases List.mem_append.1 h with h | h <;> split_ifs at h <;>
    simp only [List.mem_singleton, List.not_mem_nil] at h <;>
    first
    | exact h ▸ rfl
    | exact h.elim

/-- Case analysis on a synthetic row of one branch: it is the counter
entry (its cost positive) or the service entry (its cost positive). -/
theorem mem_entradas_cases {ventas : List Venta} {s : String} {e : Gasto}
    (h : e ∈ entradasAutoSucursal ventas s) :
    (0 < costoRepuestosMostrador (ventasDeSucursal ventas s) ∧
      e = gastoAutoMostrador (ventasDeSucursal ventas s) s) ∨
    (0 < costoRepuestosServicios (ventasDeSucursal ventas s) ∧
      e = gastoAutoServicios (ventasDeSucursal ventas s) s) := by
  simp only [entradasAutoSucursal] at h
  rcases List.mem_append.1 h with h | h <;> split_ifs at h with hc <;>
    simp only [List.mem_singleton, List.not_mem_nil] at h
  · exact Or.inl ⟨hc, h⟩
  · exact Or.inr ⟨hc, h⟩

/-- The counter entry of a branch with positive counter cost belongs to
the allocator output. -/
theorem mem_auto_mostrador {ventas : List Venta} {b : String}
    (hb : b ∈ sucursalesDe ventas)
    (hc : 0 < costoRepuestosMostrador (ventasDeSucursal ventas b)) :
    gastoAutoMostrador (ventasDeSucursal ventas b) b ∈
      obtener_gastos_automaticos ventas := by
  have hne : ventas.length ≠ 0 := by
    intro h0
    rw [List.length_eq_zero] at h0
    subst h0
    simp [sucursalesDe] at hb
  simp only [obtener_gastos_automaticos, if_neg hne]
  refine List.mem_flatMap.2 ⟨b, hb, ?_⟩
  simp only [entradasAutoSucursal, if_pos hc]
  exact List.mem_append_left _ (List.mem_singleton.2 rfl)

/-- The service entry of a branch with positive service cost belongs to
the allocator output. -/
theorem mem_auto_servicios {ventas : List Venta} {b : String}
    (hb : b ∈ sucursalesDe ventas)
    (hc : 0 < costoRepuestosServicios (ventasDeSucursal ventas b)) :
    gastoAutoServicios (ventasDeSucursal ventas b) b ∈
      obtener_gastos_automaticos ventas := by
  have hne : ventas.length ≠ 0 := by
    intro h0
    rw [List.length_eq_zero] at h0
    subst h0
    simp [sucursalesDe] at hb
  simp only [obtener_gastos_automaticos, if_neg hne]
  refine List.mem_flatMap.2 ⟨b, hb, ?_⟩
  simp only [entradasAutoSucursal]
  refine List.mem_append_right _ ?_
  rw [if_pos hc]
  exact List.mem_singleton.2 rfl

/-- Counting a classification-and-branch predicate over a `flatMap` whose
index list has no duplicates: one branch contributes 1, the rest 0. -/
theorem countP_flatMap_eq_one {α β : Type} (l : List α) (f : α → List β)
    (p : β → Bool) (b : α) (hnd : l.Nodup) (hb : b ∈ l)
    (h1 : (f b).countP p = 1)
    (h0 : ∀ a ∈ l, a ≠ b → (f a).countP p = 0) :
    (l.flatMap f).countP p = 1 := by
  induction l with
  | nil => cases hb
  | cons a t ih =>
    rw [List.flatMap_cons, List.countP_append]
    rcases List.mem_cons.1 hb with rfl | hbt
    · rw [h1]
      have hz : (t.flatMap f).countP p = 0 := by
        rw [List.countP_eq_zero]
        intro x hx
        obtain ⟨c, hc, hxc⟩ := List.mem_flatMap.1 hx
        have hneq : c ≠ b := by
          rintro rfl
          exact (List.nodup_cons.1 hnd).1 hc
        have hzc := h0 c (List.mem_cons_of_mem _ hc) hneq
        rw [List.countP_eq_zero] at hzc
        exact hzc x hxc
      rw [hz]
    · have hneq : a ≠ b := by
        rintro rfl
        exact (List.nodup_cons.1 hnd).1 hbt
      rw [h0 a (List.mem_cons_self a t) hneq]
      have := ih (List.nodup_cons.1 hnd).2 hbt
        (fun x hx hxb => h0 x (List.mem_cons_of_mem _ hx) hxb)
      omega

/-- A branch different from `b` contributes no row matching a predicate
pinned to branch `b`. -/
theorem countP_entradas_ne {ventas : List Venta} {a b : String}
    (hne : a ≠ b) (c : String) :
    (entradasAutoSucursal ventas a).countP
      (fun g => decide (g.clasificacion = c ∧ g.sucursal = b)) = 0 := by
  rw [List.countP_eq_zero]
  intro e he hp
  have hsuc := entradas_sucursal_eq he
  rw [decide_eq_true_iff] at hp
  exact hne (hsuc ▸ hp.2)

/-- Branch `b` with positive counter cost contributes exactly one
counter-classified row. -/
theorem countP_entradas_mostrador {ventas : List Venta} {b : String}
    (hc : 0 < costoRepuestosMostrador (ventasDeSucursal ventas b)) :
    (entradasAutoSucursal ventas b).countP
      (fun g => decide
        (g.clasificacion = "COSTO DE REPUESTOS VENDIDOS MOSTRADOR" ∧
          g.sucursal = b)) = 1 := by
  simp only [entradasAutoSucursal, if_pos hc, List.countP_append]
  have h1 : (List.countP
      (fun g => decide
        (g.clasificacion = "COSTO DE REPUESTOS VENDIDOS MOSTRADOR" ∧
          g.sucursal = b))
      [gastoAutoMostrador (ventasDeSucursal ventas b) b]) = 1 := by
    simp [List.countP_cons, gastoAutoMostrador]
  have h2 : (List.countP
      (fun g => decide
        (g.clasificacion = "COSTO DE REPUESTOS VENDIDOS MOSTRADOR" ∧
          g.sucursal = b))
      (if 0 < costoRepuestosServicios (ventasDeSucursal ventas b) then
        [gastoAutoServicios (ventasDeSucursal ventas b) b] else [])) = 0 := by
    split_ifs
    · simp [List.countP_cons, gastoAutoServicios]
    · simp
  rw [h1, h2]

/-- Branch `b` with positive service cost contributes exactly one
service-classified row. -/
theorem countP_entradas_servicios {ventas : List Venta} {b : String}
    (hc : 0 < costoRepuestosServicios (ventasDeSucursal ventas b)) :
    (entradasAutoSucursal ventas b).countP
      (fun g => decide
        (g.clasificacion = "COSTO DE REPUESTOS VENDIDOS EN SERVICIOS" ∧
          g.sucursal = b)) = 1 := by
  simp only [entradasAutoSucursal, List.countP_append]
  have h1 : (List.countP
      (fun g => decide
        (g.clasificacion = "COSTO DE REPUESTOS VENDIDOS EN SERVICIOS" ∧
          g.sucursal = b))
      (if 0 < costoRepuestosMostrador (ventasDeSucursal ventas b) then
        [gastoAutoMostrador (ventasDeSucursal ventas b) b] else [])) = 0 := by
    split_ifs
    · simp [List.countP_cons, gastoAutoMostrador]
    · simp
  have h2 : (List.countP
      (fun g => decide
        (g.clasificacion = "COSTO DE REPUESTOS VENDIDOS EN SERVICIOS" ∧
          g.sucursal = b))
      (if 0 < costoRepuestosServicios (ventasDeSucursal ventas b) then
        [gastoAutoServicios (ventasDeSucursal ventas b) b] else [])) = 1 := by
    rw [if_pos hc]
    simp [List.countP_cons, gastoAutoServicios]
  rw [h1, h2]

/-- The filtered manual ledger keeps no row carrying a synthetic
classification. -/
theorem countP_registrados_zero (ventas : List Venta) (gastos : List Gasto)
    (b c : String) (hcl : c ∈ clasificaciones_automaticas) :
    ((obtener_gastos_totales_con_automaticos ventas
        gastos).gastos_registrados).countP
      (fun g => decide (g.clasificacion = c ∧ g.sucursal = b)) = 0 := by
  rw [List.countP_eq_zero]
  intro g hg hp
  rw [decide_eq_true_iff] at hp
  simp only [obtener_gastos_totales_con_automaticos] at hg
  split_ifs at hg
  · have := (List.mem_filter.1 hg).2
    rw [decide_eq_true_iff] at this
    exact this (hp.1 ▸ hcl)
  · simp_all [List.length_eq_zero]

/-! ## C10 -/

/-- C10: the allocator emits a synthetic counter-parts (respectively
service-embedded-parts) row for a branch exactly when the branch occurs in
the ledger and the corresponding computed cost is strictly positive; a
zero or negative computed cost (e.g. credit notes dominating) contributes
no row of that classification. -/
theorem C10_entry_iff_positive_cost (ventas : List Venta) (b : String) :
    ((∃ e ∈ obtener_gastos_automaticos ventas, e.sucursal = b ∧
        e.clasificacion = "COSTO DE REPUESTOS VENDIDOS MOSTRADOR") ↔
      b ∈ sucursalesDe ventas ∧
        0 < costoRepuestosMostrador (ventasDeSucursal ventas b)) ∧
    ((∃ e ∈ obtener_gastos_automaticos ventas, e.sucursal = b ∧
        e.clasificacion = "COSTO DE REPUESTOS VENDIDOS EN SERVICIOS") ↔
      b ∈ sucursalesDe ventas ∧
        0 < costoRepuestosServicios (ventasDeSucursal ventas b)) := by
  constructor
  · constructor
    · rintro ⟨e, he, hsuc, hcl⟩
      simp only [obtener_gastos_automaticos] at he
      split_ifs at he with h0
      · exact absurd he (List.not_mem_nil e)
      · obtain ⟨s, hs, hes⟩ := List.mem_flatMap.1 he
        rcases mem_entradas_cases hes with ⟨hc, rfl⟩ | ⟨hc, rfl⟩
        · have : s = b := hsuc
          subst this
          exact ⟨hs, hc⟩
        · exact absurd hcl (by simp [gastoAutoServicios])
    · rintro ⟨hb, hc⟩
      exact ⟨gastoAutoMostrador (ventasDeSucursal ventas b) b,
        mem_auto_mostrador hb hc, rfl, rfl⟩
  · constructor
    · rintro ⟨e, he, hsuc, hcl⟩
      simp only [obtener_gastos_automaticos] at he
      split_ifs at he with h0
      · exact absurd he (List.not_mem_nil e)
      · obtain ⟨s, hs, hes⟩ := List.mem_flatMap.1 he
        rcases mem_entradas_cases hes with ⟨hc, rfl⟩ | ⟨hc, rfl⟩
        · exact absurd hcl (by simp [gastoAutoMostrador])
        · have : s = b := hsuc
          subst this
          exact ⟨hs, hc⟩
    · rintro ⟨hb, hc⟩
      exact ⟨gastoAutoServicios (ventasDeSucursal ventas b) b,
        mem_auto_servicios hb hc, rfl, rfl⟩

/-! ## C6 -/

/-- C6: for a branch whose SERVICE-channel sales have a zero (absent)
`repuestos` sub-amount in total, the allocator approximates the embedded
parts revenue as 70% of that branch's SE revenue, and the emitted
synthetic service-parts row costs 65% of that approximation. -/
theorem C6_se_fallback_seventy_percent (ventas : List Venta) (b : String)
    (hb : b ∈ sucursalesDe ventas)
    (hrep : sumBy ((ventasDeSucursal ventas b).filter
        (fun v => v.tipo_re_se = "SE")) (fun v => v.repuestos) = 0)
    (hpos : 0 < sumBy ((ventasDeSucursal ventas b).filter
        (fun v => v.tipo_re_se = "SE")) (fun v => v.total) * (7 / 10) *
        (65 / 100)) :
    ∃ e ∈ obtener_gastos_automaticos ventas, e.sucursal = b ∧
      e.clasificacion = "COSTO DE REPUESTOS VENDIDOS EN SERVICIOS" ∧
      e.total_usd = sumBy ((ventasDeSucursal ventas b).filter
          (fun v => v.tipo_re_se = "SE")) (fun v => v.total) * (7 / 10) *
        (65 / 100) := by
  have hcost : costoRepuestosServicios (ventasDeSucursal ventas b) =
      sumBy ((ventasDeSucursal ventas b).filter
          (fun v => v.tipo_re_se = "SE")) (fun v => v.total) * (7 / 10) *
        (65 / 100) := by
    simp only [costoRepuestosServicios, totalRepuestosServicios,
      COSTO_PORCENTAJE, if_pos hrep]
  have hc : 0 < costoRepuestosServicios (ventasDeSucursal ventas b) := by
    rw [hcost]; exact hpos
  refine ⟨gastoAutoServicios (ventasDeSucursal ventas b) b,
    mem_auto_servicios hb hc, rfl, rfl, ?_⟩
  simpa [gastoAutoServicios] using hcost

/-- Witness for C6: one SE sale of total 100 with no parts sub-amount
yields the service-parts row of cost `100 × 0.7 × 0.65 = 45.5`. -/
theorem C6_se_fallback_seventy_percent_witness :
    "SUC" ∈ sucursalesDe [ventaServicioA] ∧
    sumBy ((ventasDeSucursal [ventaServicioA] "SUC").filter
      (fun v => v.tipo_re_se = "SE")) (fun v => v.repuestos) = 0 ∧
    (0 : ℚ) < sumBy ((ventasDeSucursal [ventaServicioA] "SUC").filter
      (fun v => v.tipo_re_se = "SE")) (fun v => v.total) * (7 / 10) *
      (65 / 100) ∧
    (∃ e ∈ obtener_gastos_automaticos [ventaServicioA], e.sucursal = "SUC" ∧
      e.clasificacion = "COSTO DE REPUESTOS VENDIDOS EN SERVICIOS" ∧
      e.total_usd = sumBy ((ventasDeSucursal [ventaServicioA] "SUC").filter
          (fun v => v.tipo_re_se = "SE")) (fun v => v.total) * (7 / 10) *
        (65 / 100)) := by
  have hb : "SUC" ∈ sucursalesDe [ventaServicioA] := by
    simp [sucursalesDe, ventaServicioA]
  have hrep : sumBy ((ventasDeSucursal [ventaServicioA] "SUC").filter
      (fun v => v.tipo_re_se = "SE")) (fun v => v.repuestos) = 0 := by
    norm_num +decide [sumBy, ventasDeSucursal, ventaServicioA,
      List.filter_cons]
  have hpos : (0 : ℚ) < sumBy ((ventasDeSucursal [ventaServicioA]
      "SUC").filter (fun v => v.tipo_re_se = "SE")) (fun v => v.total) *
      (7 / 10) * (65 / 100) := by
    norm_num +decide [sumBy, ventasDeSucursal, ventaServicioA,
      List.filter_cons]
  exact ⟨hb, hrep, hpos,
    C6_se_fallback_seventy_percent [ventaServicioA] "SUC" hb hrep hpos⟩

/-! ## C3 -/

/-- C3 counterexample: a sales ledger whose counter-parts synthetic cost
is non-zero but negative (a credit note), together with a manual row
carrying the counter-parts classification: the merged ledger ends with
zero rows of that classification for the branch, not exactly one. -/
theorem C3_counterexample :
    costoRepuestosMostrador (ventasDeSucursal [ventaMostradorNC] "SUC")
      ≠ 0 ∧
    "SUC" ∈ sucursalesDe [ventaMostradorNC] ∧
    gastoManualMostradorA.clasificacion =
      "COSTO DE REPUESTOS VENDIDOS MOSTRADOR" ∧
    ((obtener_gastos_totales_con_automaticos [ventaMostradorNC]
        [gastoManualMostradorA]).gastos_todos).countP
      (fun g => decide
        (g.clasificacion = "COSTO DE REPUESTOS VENDIDOS MOSTRADOR" ∧
          g.sucursal = "SUC")) = 0 := by
  refine ⟨?_, by simp [sucursalesDe, ventaMostradorNC], by rfl, ?_⟩
  · norm_num +decide [costoRepuestosMostrador, totalRepuestosMostrador,
      sumBy, ventasDeSucursal, ventaMostradorNC, COSTO_PORCENTAJE,
      List.filter_cons]
  · norm_num +decide [obtener_gastos_totales_con_automaticos,
      obtener_gastos_automaticos, entradasAutoSucursal, sucursalesDe,
      ventasDeSucursal, costoRepuestosMostrador, totalRepuestosMostrador,
      costoRepuestosServicios, totalRepuestosServicios, gastoAutoMostrador,
      gastoAutoServicios, sumBy, mesStrDe, fechaMaxDe,
      clasificaciones_automaticas, ventaMostradorNC, gastoManualMostradorA,
      COSTO_PORCENTAJE, List.filter_cons, List.dedup_cons_of_not_mem,
      List.dedup_nil, List.max?, List.countP_cons]

/-- C3 as amended: for every branch of the sales ledger whose synthetic
counter-parts (respectively service-parts) cost is strictly positive, the
merged ledger contains exactly one row of that classification for that
branch — the manual duplicates are dropped before the union. -/
theorem C3_merge_exactly_one (ventas : List Venta) (gastos : List Gasto)
    (b : String) (hb : b ∈ sucursalesDe ventas) :
    (0 < costoRepuestosMostrador (ventasDeSucursal ventas b) →
      ((obtener_gastos_totales_con_automaticos ventas
          gastos).gastos_todos).countP
        (fun g => decide
          (g.clasificacion = "COSTO DE REPUESTOS VENDIDOS MOSTRADOR" ∧
            g.sucursal = b)) = 1) ∧
    (0 < costoRepuestosServicios (ventasDeSucursal ventas b) →
      ((obtener_gastos_totales_con_automaticos ventas
          gastos).gastos_todos).countP
        (fun g => decide
          (g.clasificacion = "COSTO DE REPUESTOS VENDIDOS EN SERVICIOS" ∧
            g.sucursal = b)) = 1) := by
  have hne : ventas.length ≠ 0 := by
    intro h0
    rw [List.length_eq_zero] at h0
    subst h0
    simp [sucursalesDe] at hb
  constructor
  · intro hc
    have hauto : (obtener_gastos_automaticos ventas).countP
        (fun g => decide
          (g.clasificacion = "COSTO DE REPUESTOS VENDIDOS MOSTRADOR" ∧
            g.sucursal = b)) = 1 := by
      simp only [obtener_gastos_automaticos, if_neg hne]
      exact countP_flatMap_eq_one _ _ _ b (List.nodup_dedup _) hb
        (countP_entradas_mostrador hc) (fun a _ hab => countP_entradas_ne hab _)
    have hlen : 0 < (obtener_gastos_automaticos ventas).length := by
      refine List.length_pos.2 (fun hnil => ?_)
      rw [hnil] at hauto
      simp [List.countP_nil] at hauto
    have hreg := countP_registrados_zero ventas gastos b
      "COSTO DE REPUESTOS VENDIDOS MOSTRADOR" (by simp [clasificaciones_automaticas])
    show ((obtener_gastos_totales_con_automaticos ventas
        gastos).gastos_todos).countP _ = 1
    simp only [obtener_gastos_totales_con_automaticos] at hreg ⊢
    rw [if_pos hlen, List.countP_append, hreg, hauto]
  · intro hc
    have hauto : (obtener_gastos_automaticos ventas).countP
        (fun g => decide
          (g.clasificacion = "COSTO DE REPUESTOS VENDIDOS EN SERVICIOS" ∧
            g.sucursal = b)) = 1 := by
      simp only [obtener_gastos_automaticos, if_neg hne]
      exact countP_flatMap_eq_one _ _ _ b (List.nodup_dedup _) hb
        (countP_entradas_servicios hc) (fun a _ hab => countP_entradas_ne hab _)
    have hlen : 0 < (obtener_gastos_automaticos ventas).length := by
      refine List.length_pos.2 (fun hnil => ?_)
      rw [hnil] at hauto
      simp [List.countP_nil] at hauto
    have hreg := countP_registrados_zero ventas gastos b
      "COSTO DE REPUESTOS VENDIDOS EN SERVICIOS" (by simp [clasificaciones_automaticas])
    show ((obtener_gastos_totales_con_automaticos ventas
        gastos).gastos_todos).countP _ = 1
    simp only [obtener_gastos_totales_con_automaticos] at hreg ⊢
    rw [if_pos hlen, List.countP_append, hreg, hauto]

/-- Witness for C3: a positive counter-parts cost with a manual duplicate
gives exactly one merged row of that classification. -/
theorem C3_merge_exactly_one_witness :
    "SUC" ∈ sucursalesDe [ventaMostradorA] ∧
    0 < costoRepuestosMostrador (ventasDeSucursal [ventaMostradorA] "SUC") ∧
    ((obtener_gastos_totales_con_automaticos [ventaMostradorA]
        [gastoManualMostradorA]).gastos_todos).countP
      (fun g => decide
        (g.clasificacion = "COSTO DE REPUESTOS VENDIDOS MOSTRADOR" ∧
          g.sucursal = "SUC")) = 1 := by
  have hb : "SUC" ∈ sucursalesDe [ventaMostradorA] := by
    simp [sucursalesDe, ventaMostradorA]
  have hc : 0 < costoRepuestosMostrador
      (ventasDeSucursal [ventaMostradorA] "SUC") := by
    norm_num +decide [costoRepuestosMostrador, totalRepuestosMostrador,
      sumBy, ventasDeSucursal, ventaMostradorA, COSTO_PORCENTAJE,
      List.filter_cons]
  exact ⟨hb, hc,
    (C3_merge_exactly_one [ventaMostradorA] [gastoManualMostradorA] "SUC"
      hb).1 hc⟩

/-! ## Helper lemmas on the critical-alert rules -/

/-- Every rule-1 alert is the sales-collapse alert. -/
theorem mem_alertaRegla1_titulo {ventas : List Venta} {a : Alerta}
    (h : a ∈ alertaRegla1 ventas) :
    a.titulo = "🚨 Caída Drástica de Ventas" := by
  simp only [alertaRegla1] at h
  split_ifs at h <;>
    simp only [List.mem_singleton, List.not_mem_nil] at h <;>
    exact h ▸ rfl

/-- Rule 2 is silent over an empty expense frame. -/
theorem alertaRegla2_nil (ventas : List Venta) (t : ℚ) :
    alertaRegla2 ventas [] t = [] := by
  simp [alertaRegla2]

/-- Every rule-2 alert is the expenses-exceed-revenue alert. -/
theorem mem_alertaRegla2_titulo {ventas : List Venta} {gastos : List Gasto}
    {t : ℚ} {a : Alerta} (h : a ∈ alertaRegla2 ventas gastos t) :
    a.titulo = "🚨 Gastos Superan Ingresos" := by
  simp only [alertaRegla2] at h
  split_ifs at h <;>
    simp only [List.mem_singleton, List.not_mem_nil] at h <;>
    exact h ▸ rfl

/-- Every rule-3 alert is the thin-margin alert. -/
theorem mem_alertaRegla3_titulo {ventas : List Venta} {gastos : List Gasto}
    {t : ℚ} {a : Alerta} (h : a ∈ alertaRegla3 ventas gastos t) :
    a.titulo = "⚠️ Margen Crítico" := by
  simp only [alertaRegla3] at h
  split_ifs at h <;>
    simp only [List.mem_singleton, List.not_mem_nil] at h <;>
    exact h ▸ rfl

/-- Every rule-4 alert is the sales-silence alert. -/
theorem mem_alertaRegla4_titulo {ventas : List Venta} {r : Int} {a : Alerta}
    (h : a ∈ alertaRegla4 ventas r) :
    a.titulo = "🚨 Sin Ventas Recientes" := by
  simp only [alertaRegla4] at h
  split_ifs at h <;>
    simp only [List.mem_singleton, List.not_mem_nil] at h <;>
    exact h ▸ rfl

/-- Every rule-5 alert is the client-concentration alert. -/
theorem mem_alertaRegla5_titulo {ventas : List Venta} {a : Alerta}
    (h : a ∈ alertaRegla5 ventas) :
    a.titulo = "⚠️ Alta Dependencia de Cliente" := by
  simp only [alertaRegla5] at h
  split_ifs at h <;>
    simp only [List.mem_singleton, List.not_mem_nil] at h <;>
    exact h ▸ rfl

/-! ## C8 -/

/-- C8: over a non-empty sales ledger with positive total revenue, the
client-concentration alert (severity MEDIUM) fires exactly when the top
single client's revenue share strictly exceeds 80%; in particular it does
not fire at exactly 80%. -/
theorem C8_client_concentration_iff (ventas : List Venta)
    (gastos : List Gasto) (ctx : Option GastosTotales)
    (dbVentas : List Venta) (dbGastos : List Gasto) (referencia : Int)
    (hne : ventas ≠ [])
    (hpos : 0 < sumBy ventas (fun v => v.total)) :
    (∃ a ∈ detect_critical_alerts ventas gastos ctx dbVentas dbGastos
        referencia,
      a.titulo = "⚠️ Alta Dependencia de Cliente" ∧ a.severidad = "MEDIA") ↔
    80 < topClienteTotal ventas / sumBy ventas (fun v => v.total) * 100 := by
  have hlen : ¬ventas.length = 0 := by
    simpa [List.length_eq_zero] using hne
  constructor
  · rintro ⟨a, ha, ht, _⟩
    simp only [detect_critical_alerts, if_neg hlen, List.mem_append] at ha
    rcases ha with ((((h | h) | h) | h) | h)
    · rw [mem_alertaRegla1_titulo h] at ht
      exact absurd ht (by decide)
    · rw [mem_alertaRegla2_titulo h] at ht
      exact absurd ht (by decide)
    · rw [mem_alertaRegla3_titulo h] at ht
      exact absurd ht (by decide)
    · rw [mem_alertaRegla4_titulo h] at ht
      exact absurd ht (by decide)
    · simp only [alertaRegla5, if_pos hpos] at h
      split_ifs at h with hcond
      · exact hcond
      · exact absurd h (List.not_mem_nil a)
  · intro hconc
    refine ⟨{ tipo := "CRITICA"
              titulo := "⚠️ Alta Dependencia de Cliente"
              severidad := "MEDIA" }, ?_, rfl, rfl⟩
    simp only [detect_critical_alerts, if_neg hlen]
    refine List.mem_append_right _ ?_
    simp only [alertaRegla5, if_pos hpos, if_pos hconc]
    exact List.mem_singleton.2 rfl

/-- Witness for C8 at a one-client ledger (share 100%): both hypotheses
hold and the equivalence is usable. -/
theorem C8_client_concentration_iff_witness :
    ([ventaMostradorA] : List Venta) ≠ [] ∧
    0 < sumBy [ventaMostradorA] (fun v => v.total) ∧
    ((∃ a ∈ detect_critical_alerts [ventaMostradorA] [] none
        [ventaMostradorA] [] 0,
      a.titulo = "⚠️ Alta Dependencia de Cliente" ∧ a.severidad = "MEDIA") ↔
    80 < topClienteTotal [ventaMostradorA] /
      sumBy [ventaMostradorA] (fun v => v.total) * 100) := by
  have hne : ([ventaMostradorA] : List Venta) ≠ [] := by simp
  have hpos : 0 < sumBy [ventaMostradorA] (fun v => v.total) := by
    norm_num [sumBy, ventaMostradorA]
  exact ⟨hne, hpos, C8_client_concentration_iff [ventaMostradorA] [] none
    [ventaMostradorA] [] 0 hne hpos⟩

/-! ## C7 -/

/-- C7 counterexample: a non-empty sales ledger whose automatically
allocated expense exceeds revenue, with an *empty* manual expense ledger:
the total expense (65) exceeds revenue (20), yet no expenses-exceed-revenue
alert fires, because rule 2 is guarded by a non-empty manual frame. -/
theorem C7_counterexample :
    sumBy [ventaMostradorA] (fun v => v.total) <
      (obtener_gastos_totales_con_automaticos [ventaMostradorA]
        []).gastos_postventa_total ∧
    ∀ a ∈ detect_critical_alerts [ventaMostradorA] []
        (some (obtener_gastos_totales_con_automaticos [ventaMostradorA] []))
        [ventaMostradorA] [] 0,
      a.titulo ≠ "🚨 Gastos Superan Ingresos" := by
  constructor
  · norm_num +decide [obtener_gastos_totales_con_automaticos,
      obtener_gastos_automaticos, entradasAutoSucursal, sucursalesDe,
      ventasDeSucursal, costoRepuestosMostrador, totalRepuestosMostrador,
      costoRepuestosServicios, totalRepuestosServicios, gastoAutoMostrador,
      gastoAutoServicios, sumBy, mesStrDe, fechaMaxDe,
      clasificaciones_automaticas, ventaMostradorA, COSTO_PORCENTAJE,
      List.filter_cons, List.dedup_cons_of_not_mem, List.dedup_nil,
      List.max?]
  · intro a ha
    have hlen : ¬([ventaMostradorA] : List Venta).length = 0 := by decide
    simp only [detect_critical_alerts, if_neg hlen, List.mem_append] at ha
    rcases ha with ((((h | h) | h) | h) | h)
    · rw [mem_alertaRegla1_titulo h]; decide
    · rw [alertaRegla2_nil] at h
      exact absurd h (List.not_mem_nil a)
    · rw [mem_alertaRegla3_titulo h]; decide
    · rw [mem_alertaRegla4_titulo h]; decide
    · rw [mem_alertaRegla5_titulo h]; decide

/-- C7 as amended: whenever the manual expense ledger is non-empty (in
addition to the sales ledger) and the resolved total allocated-plus-manual
expense exceeds total revenue, the expenses-exceed-revenue alert fires
with severity HIGH. -/
theorem C7_expenses_exceed_revenue (ventas : List Venta)
    (gastos : List Gasto) (ctx : Option GastosTotales)
    (dbVentas : List Venta) (dbGastos : List Gasto) (referencia : Int)
    (hv : ventas ≠ []) (hg : gastos ≠ [])
    (hx : sumBy ventas (fun v => v.total) <
      (resolve_gastos_context gastos ctx dbVentas
        dbGastos).gastos_postventa_total) :
    ∃ a ∈ detect_critical_alerts ventas gastos ctx dbVentas dbGastos
        referencia,
      a.titulo = "🚨 Gastos Superan Ingresos" ∧ a.severidad = "ALTA" := by
  have hlen : ¬ventas.length = 0 := by
    simpa [List.length_eq_zero] using hv
  have hglen : 0 < gastos.length := List.length_pos.2 hg
  refine ⟨{ tipo := "CRITICA"
            titulo := "🚨 Gastos Superan Ingresos"
            severidad := "ALTA" }, ?_, rfl, rfl⟩
  simp only [detect_critical_alerts, if_neg hlen]
  refine List.mem_append_left _ (List.mem_append_left _
    (List.mem_append_left _ (List.mem_append_right _ ?_)))
  simp only [alertaRegla2, if_pos hglen, if_pos hx]
  exact List.mem_singleton.2 rfl

/-- Witness for C7: a manual rent row of 100 against 20 of revenue makes
the alert fire. -/
theorem C7_expenses_exceed_revenue_witness :
    ([ventaMostradorA] : List Venta) ≠ [] ∧
    ([gastoAlquilerA] : List Gasto) ≠ [] ∧
    sumBy [ventaMostradorA] (fun v => v.total) <
      (resolve_gastos_context [gastoAlquilerA] none [ventaMostradorA]
        [gastoAlquilerA]).gastos_postventa_total ∧
    ∃ a ∈ detect_critical_alerts [ventaMostradorA] [gastoAlquilerA] none
        [ventaMostradorA] [gastoAlquilerA] 0,
      a.titulo = "🚨 Gastos Superan Ingresos" ∧ a.severidad = "ALTA" := by
  have hv : ([ventaMostradorA] : List Venta) ≠ [] := by simp
  have hg : ([gastoAlquilerA] : List Gasto) ≠ [] := by simp
  have hx : sumBy [ventaMostradorA] (fun v => v.total) <
      (resolve_gastos_context [gastoAlquilerA] none [ventaMostradorA]
        [gastoAlquilerA]).gastos_postventa_total := by
    norm_num +decide [resolve_gastos_context, sumBy, ventaMostradorA,
      gastoAlquilerA]
  exact ⟨hv, hg, hx, C7_expenses_exceed_revenue [ventaMostradorA]
    [gastoAlquilerA] none [ventaMostradorA] [gastoAlquilerA] 0 hv hg hx⟩

/-! ## Helper lemmas on the ensemble combiner -/

/-- Two-strategy instance of the combiner: the forecast is the arithmetic
mean, and confidence is High exactly when the population coefficient of
variation `|a-b|/(a+b)` is below 0.15 — equivalently when
`|a-b| / ((a+b)/2) < 0.30` — provided the mean is positive. -/
theorem combinar_two (a b : ℚ) (ms : List String) (wd : Nat)
    (fb : Prediccion) (hm : 0 < a + b) :
    (combinar_predicciones [a, b] ms wd fb).prediccion = some ((a + b) / 2) ∧
    ((combinar_predicciones [a, b] ms wd fb).confianza = "Alta" ↔
      |a - b| / ((a + b) / 2) < 30 / 100) := by
  have hmean : listMean [a, b] = (a + b) / 2 := by
    simp [listMean]
    try ring
  have hvar : pvariance [a, b] = (a - b) ^ 2 / 4 := by
    simp only [pvariance, listMean, List.map_cons, List.map_nil,
      List.sum_cons, List.sum_nil, List.length_cons, List.length_nil]
    push_cast
    ring
  have hmpos : 0 < (a + b) / 2 := by linarith
  have hkey : ((a - b) ^ 2 < (15 / 100) ^ 2 * ((a + b) / 2) ^ 2 * 4) ↔
      |a - b| / ((a + b) / 2) < 30 / 100 := by
    rw [div_lt_iff₀ hmpos]
    constructor
    · intro h
      nlinarith [sq_abs (a - b), abs_nonneg (a - b)]
    · intro h
      nlinarith [sq_abs (a - b), abs_nonneg (a - b)]
  have hlen0 : ¬([a, b].length = 0) := by simp
  constructor
  · simp only [combinar_predicciones, if_neg hlen0, hmean]
  · simp only [combinar_predicciones, if_neg hlen0, hmean, hvar, cvLt,
      decide_eq_true_eq]
    have h2 : (2 : Nat) ≤ ([a, b] : List ℚ).length := by simp
    rw [if_pos h2, if_pos hmpos]
    split_ifs with h1 hmed
    · constructor
      · intro _
        exact hkey.mp (by linarith)
      · intro _
        rfl
    · constructor
      · intro h
        exact absurd h (by decide)
      · intro h
        exact absurd (by linarith [hkey.mpr h] :
          (a - b) ^ 2 / 4 < (15 / 100) ^ 2 * ((a + b) / 2) ^ 2) h1
    · constructor
      · intro h
        exact absurd h (by decide)
      · intro h
        exact absurd (by linarith [hkey.mpr h] :
          (a - b) ^ 2 / 4 < (15 / 100) ^ 2 * ((a + b) / 2) ^ 2) h1

/-- The seven-day sample ledger has seven distinct daily buckets. -/
theorem dailyTotals_semanaA_length : (dailyTotals ventasSemanaA).length = 7 := by
  norm_num +decide [dailyTotals, sortedKeys, ventasSemanaA,
    List.insertionSort, List.orderedInsert, List.dedup_cons_of_not_mem,
    List.dedup_nil]

/-! ## C1 -/

/-- C1 counterexample: with exactly two strategies succeeding at 100 and
120 over a 7-day ledger, the forecast is the mean 110, and confidence is
reported High even though `|100-120| / 110 = 2/11` is not below 0.15 —
the claim's High condition does not match the code's. -/
theorem C1_counterexample :
    (predict_next_month_advanced [("ARIMA", 100), ("Regresión Lineal", 120)]
      0 ventasSemanaA).prediccion = some ((100 + 120) / 2) ∧
    (predict_next_month_advanced [("ARIMA", 100), ("Regresión Lineal", 120)]
      0 ventasSemanaA).confianza = "Alta" ∧
    ¬(|(100 : ℚ) - 120| / ((100 + 120) / 2) < 15 / 100) := by
  have h7 : ¬(ventasSemanaA.length < 7) := by decide
  have hd : ¬((dailyTotals ventasSemanaA).length < 7) := by
    rw [dailyTotals_semanaA_length]
    decide
  have hadv : ∀ q : Prediccion → Prop,
      q (predict_next_month_advanced [("ARIMA", 100),
        ("Regresión Lineal", 120)] 0 ventasSemanaA) ↔
      q (combinar_predicciones [100, 120] ["ARIMA", "Regresión Lineal"]
        (future_working_mask
          (some ((((dailyTotals ventasSemanaA).map (·.1)).max?).getD 0)) 0
          30).2
        (predict_next_month_simple 0 ventasSemanaA)) := by
    intro q
    simp only [predict_next_month_advanced, if_neg h7, if_neg hd,
      List.map_cons, List.map_nil]
  have hc := combinar_two 100 120 ["ARIMA", "Regresión Lineal"]
    (future_working_mask
      (some ((((dailyTotals ventasSemanaA).map (·.1)).max?).getD 0)) 0
      30).2
    (predict_next_month_simple 0 ventasSemanaA) (by norm_num)
  refine ⟨?_, ?_, by norm_num⟩
  · rw [hadv (fun p => p.prediccion = some ((100 + 120) / 2))]
    exact hc.1
  · rw [hadv (fun p => p.confianza = "Alta")]
    rw [hc.2]
    norm_num

/-- C1 as amended: when exactly two strategies succeed with outputs `a`
and `b` (positive mean), the reported forecast equals `(a+b)/2`, and
confidence is High iff `|a-b| / ((a+b)/2) < 0.30` (the code compares the
population CV `|a-b|/(a+b)` against 0.15, twice as permissive as the
claim's stated condition). -/
theorem C1_ensemble_two_strategies (ventas : List Venta) (a b : ℚ)
    (n1 n2 : String) (now : Int)
    (h7 : ¬ventas.length < 7)
    (hd : ¬(dailyTotals ventas).length < 7)
    (hm : 0 < a + b) :
    (predict_next_month_advanced [(n1, a), (n2, b)] now ventas).prediccion =
      some ((a + b) / 2) ∧
    ((predict_next_month_advanced [(n1, a), (n2, b)] now
        ventas).confianza = "Alta" ↔
      |a - b| / ((a + b) / 2) < 30 / 100) := by
  have hadv : predict_next_month_advanced [(n1, a), (n2, b)] now ventas =
      combinar_predicciones [a, b] [n1, n2]
        (future_working_mask
          (some ((((dailyTotals ventas).map (·.1)).max?).getD 0)) now 30).2
        (predict_next_month_simple now ventas) := by
    simp only [predict_next_month_advanced, if_neg h7, if_neg hd,
      List.map_cons, List.map_nil]
  rw [hadv]
  exact combinar_two a b [n1, n2] _ _ hm

/-- Witness for C1 at outputs 100 and 103 over the seven-day ledger:
hypotheses hold, the forecast is 101.5 and the equivalence is usable. -/
theorem C1_ensemble_two_strategies_witness :
    ¬(ventasSemanaA.length < 7) ∧
    ¬((dailyTotals ventasSemanaA).length < 7) ∧
    (0 : ℚ) < 100 + 103 ∧
    ((predict_next_month_advanced [("ARIMA", 100), ("Regresión Lineal", 103)]
        0 ventasSemanaA).prediccion = some ((100 + 103) / 2) ∧
      ((predict_next_month_advanced [("ARIMA", 100),
          ("Regresión Lineal", 103)] 0 ventasSemanaA).confianza = "Alta" ↔
        |(100 : ℚ) - 103| / ((100 + 103) / 2) < 30 / 100)) := by
  have h7 : ¬(ventasSemanaA.length < 7) := by decide
  have hd : ¬((dailyTotals ventasSemanaA).length < 7) := by
    rw [dailyTotals_semanaA_length]
    decide
  have hm : (0 : ℚ) < 100 + 103 := by norm_num
  exact ⟨h7, hd, hm, C1_ensemble_two_strategies ventasSemanaA 100 103
    "ARIMA" "Regresión Lineal" 0 h7 hd hm⟩

/-! ## C9 -/

/-- C9: on an empty sales ledger and an empty expense ledger the
aggregator returns a bundle whose three insight lists are empty, whose
forecast carries the needs-more-data message under the Simple Average
method with no numeric prediction (confidence Low), and which holds zero
critical alerts, zero anomalies and zero extra recommendations. -/
theorem C9_empty_ledgers_bundle :
    (get_ai_summary [] none 0 none [] [] none).insights.tendencias = [] ∧
    (get_ai_summary [] none 0 none [] [] none).insights.alertas = [] ∧
    (get_ai_summary [] none 0 none [] [] none).insights.recomendaciones
      = [] ∧
    (get_ai_summary [] none 0 none [] [] none).recomendaciones = [] ∧
    (get_ai_summary [] none 0 none [] [] none).prediccion.prediccion
      = none ∧
    (get_ai_summary [] none 0 none [] [] none).prediccion.metodo =
      "Promedio Simple" ∧
    (get_ai_summary [] none 0 none [] [] none).prediccion.mensaje =
      "Se necesitan más datos para hacer una predicción confiable" ∧
    (get_ai_summary [] none 0 none [] [] none).prediccion.confianza =
      "Baja" ∧
    (get_ai_summary [] none 0 none [] [] none).alertas_criticas = [] ∧
    (get_ai_summary [] none 0 none [] [] none).anomalias = [] := by
  refine ⟨?_, ?_, ?_, ?_, ?_, ?_, ?_, ?_, ?_, ?_⟩ <;>
    norm_num [get_ai_summary, resolve_gastos_context,
      obtener_gastos_totales_con_automaticos, obtener_gastos_automaticos,
      insightsLocales, tendenciasVentas, margenMensajes,
      recomendacionesSeguimiento, productividadResuelta,
      productividadMensajes, generate_recommendations,
      detect_critical_alerts, detect_anomalies_advanced,
      predict_next_month_advanced, predict_next_month_simple, sumBy,
      mixServicios, mixRepuestos, shareServicios, shareRepuestos]

end Dashboard
